import Mathlib

set_option maxRecDepth 100000

namespace Didox

/-!
# Verification of the didox document-builder transformation layer

Shallow embedding of the fluent document builders (act, invoice, transport
waybill, empowerment, letter to the tax authority, founders' protocol,
multi-party and arbitrary documents) of the didox TypeScript client library,
together with proofs about the numeric derivations, serialization, ordinal
numbering, raw-override merging, validation timing and factory seeding that the
specification describes.

JavaScript numbers are modelled as exact rationals (`ℚ`).  `Math.round` and
`Number.prototype.toFixed(2)` round half-up, which matches the JavaScript
behaviour on every decimal value that a 64-bit float represents exactly.
`Number.prototype.toString` is modelled for numbers with a terminating decimal
expansion (the only values the builders' money fields hold exactly); a value
whose expansion does not terminate within 30 digits is rendered as a marker
string.  JavaScript objects are modelled as insertion-ordered association
lists of string keys and JSON values; validation errors (`throw new Error` /
`DidoxValidationError`) are modelled with `Except String`, carrying the error
message.
-/

/-- JavaScript `Math.round`: round half toward positive infinity. -/
def jsRound (q : ℚ) : ℤ := ⌊q + 1/2⌋

/-- Rounding to two decimal places, half-up, as performed by `toFixed(2)`. -/
def round2 (q : ℚ) : ℚ := (⌊q * 100 + 1/2⌋ : ℚ) / 100

/-- Decimal digits of `n`, left-padded with zeros to width `w`. -/
def padZeros (w : ℕ) (n : ℕ) : String :=
  let s := toString n
  String.mk (List.replicate (w - s.length) '0') ++ s

/-- JavaScript `Number.prototype.toFixed(2)`: round half-up to hundredths and
render with exactly two fraction digits. -/
def toFixed2 (q : ℚ) : String :=
  let n : ℤ := ⌊q * 100 + 1/2⌋
  let s := n.natAbs
  (if n < 0 then "-" else "") ++ toString (s / 100) ++ "." ++ padZeros 2 (s % 100)

/-- The least `k ≤ 30` such that `q * 10^k` is an integer, when one exists. -/
def decExp (q : ℚ) : Option ℕ :=
  (List.range 31).find? (fun k => (q * (10 : ℚ) ^ k).den == 1)

/-- JavaScript `Number.prototype.toString` on a number with a terminating
decimal expansion: the shortest exact decimal form, with no forced fraction
digits (an integer renders with no decimal point at all). -/
def numToString (q : ℚ) : String :=
  match decExp q with
  | some 0 => toString q.num
  | some (k + 1) =>
      let n : ℤ := (q * (10 : ℚ) ^ (k + 1)).num
      let s := n.natAbs
      (if n < 0 then "-" else "") ++ toString (s / 10 ^ (k + 1)) ++ "." ++
        padZeros (k + 1) (s % 10 ^ (k + 1))
  | none => "NONTERMINATING"

/-! ## JSON values and JavaScript object semantics -/

/-- A JSON value, as held in a JavaScript object.  Objects are
insertion-ordered association lists, as JavaScript string-keyed objects are. -/
inductive Json where
  | null : Json
  | bool (b : Bool) : Json
  | num (q : ℚ) : Json
  | str (s : String) : Json
  | arr (elems : List Json) : Json
  | obj (fields : List (String × Json)) : Json

/-- The value of property `k`, reading the association list the way a
JavaScript object does: a later write to the same key replaces the earlier
one, so the rightmost binding is authoritative. -/
def jLookup : List (String × Json) → String → Option Json
  | [], _ => none
  | kv :: rest, k =>
      match jLookup rest k with
      | some v => some v
      | none => if kv.1 = k then some kv.2 else none

/-- `k in o`: whether the object has the property `k`. -/
def jHasKey (o : List (String × Json)) (k : String) : Bool :=
  (jLookup o k).isSome

/-- JavaScript property write `o[k] = v`: an existing key keeps its position
and gets the new value; a fresh key is appended. -/
def objSet (o : List (String × Json)) (k : String) (v : Json) :
    List (String × Json) :=
  if jHasKey o k then o.map (fun kv => if kv.1 = k then (k, v) else kv)
  else o ++ [(k, v)]

/-- `Object.assign(o, src)` / spread `\x7b...o, ...src\x7d`: write every
property of `src` onto `o`, in order (last writer wins per key). -/
def objAssign (o src : List (String × Json)) : List (String × Json) :=
  src.foldl (fun acc kv => objSet acc kv.1 kv.2) o

/-- Indexed map, as JavaScript `list.map((x, i) => f(i, x))` starting at `i`. -/
def mapWithIndex (f : ℕ → α → β) : ℕ → List α → List β
  | _, [] => []
  | i, a :: rest => f i a :: mapWithIndex f (i + 1) rest

/-! ## Act builder (`src/modules/documents/builders/act.ts`)

The builder's accumulated `this.payload` is a `Partial<ActDraft>`; every
section is `Option` until its setter runs.  `build()` validates sections and
projects the draft into the wire payload. -/

structure ActDocDraft where
  no : String
  date : String
  text : Option String
deriving DecidableEq

structure ContractDraft where
  no : String
  date : String
deriving DecidableEq

structure ActPartyDraft where
  tin : String
  name : String
  branchCode : Option String
  branchName : Option String
deriving DecidableEq

structure ActProductDraft where
  name : String
  catalogCode : String
  catalogName : String
  packageCode : String
  packageName : String
  count : ℚ
  price : ℚ
  vatRate : Option ℚ
  withoutVat : Option Bool
  lgotaName : Option String
  lgotaType : Option ℤ
deriving DecidableEq

structure ActFlags where
  hasVat : Option Bool
  hasExcise : Option Bool
deriving DecidableEq

/-- `Partial<ActDraft>`: the `ActBuilder`'s accumulated `this.payload`. -/
structure ActState where
  act : Option ActDocDraft := none
  contract : Option ContractDraft := none
  seller : Option ActPartyDraft := none
  buyer : Option ActPartyDraft := none
  products : Option (List ActProductDraft) := none
  flags : Option ActFlags := none
deriving DecidableEq

structure ApiActDoc where
  ActNo : String
  ActDate : String
  ActText : Option String
deriving DecidableEq

structure ApiContractDoc where
  ContractNo : String
  ContractDate : String
deriving DecidableEq

structure ApiActProduct where
  OrdNo : ℕ
  CatalogCode : String
  CatalogName : String
  Name : String
  MeasureId : Option ℤ
  PackageCode : String
  PackageName : String
  Count : String
  Summa : String
  TotalSumWithoutVat : String
  VatRate : String
  VatSum : String
  TotalSum : String
  WithoutVat : Bool
  LgotaName : Option String
  LgotaType : Option ℤ
deriving DecidableEq

structure ApiActProductList where
  Tin : String
  HasVat : Bool
  HasExcise : Bool
  Products : List ApiActProduct
deriving DecidableEq

structure ApiActPayload where
  ActDoc : ApiActDoc
  SellerTin : String
  ProductList : ApiActProductList
  SellerName : String
  SellerBranchCode : String
  SellerBranchName : String
  BuyerTin : String
  BuyerName : String
  BuyerBranchCode : String
  BuyerBranchName : String
  ContractDoc : Option ApiContractDoc
deriving DecidableEq

namespace ActBuilder

/-- One product line of `ActBuilder.build`'s `Products` map (act.ts 346-370). -/
def buildProduct (hasVat : Bool) (i : ℕ) (product : ActProductDraft) :
    ApiActProduct :=
  let totalSumWithoutVat := product.count * product.price
  let vatRate := product.vatRate.getD 0
  let vatSum :=
    if hasVat = true ∧ vatRate > 0 then totalSumWithoutVat * vatRate / 100 else 0
  let totalSum := totalSumWithoutVat + vatSum
  { OrdNo := i + 1
    CatalogCode := product.catalogCode
    CatalogName := product.catalogName
    Name := product.name
    MeasureId := none
    PackageCode := product.packageCode
    PackageName := product.packageName
    Count := numToString product.count
    Summa := numToString totalSum
    TotalSumWithoutVat := toFixed2 totalSumWithoutVat
    VatRate := numToString vatRate
    VatSum := toFixed2 vatSum
    TotalSum := toFixed2 totalSum
    WithoutVat := product.withoutVat.getD (!hasVat)
    LgotaName := product.lgotaName
    LgotaType := product.lgotaType }

/-- `ActBuilder.build` (act.ts 317-390). -/
def build (s : ActState) : Except String ApiActPayload :=
  match s.act with
  | none => .error "Act document information is required"
  | some act =>
  match s.seller with
  | none => .error "Seller information is required"
  | some seller =>
  match s.buyer with
  | none => .error "Buyer information is required"
  | some buyer =>
  if s.products.getD [] = [] then
    .error "At least one product/service is required"
  else
    let flags := s.flags.getD { hasVat := none, hasExcise := none }
    .ok
      { ActDoc :=
          { ActNo := act.no
            ActDate := act.date
            ActText :=
              match act.text with
              | some t => if t = "" then none else some t
              | none => none }
        SellerTin := seller.tin
        ProductList :=
          { Tin := seller.tin
            HasVat := flags.hasVat.getD false
            HasExcise := flags.hasExcise.getD false
            Products :=
              mapWithIndex (buildProduct (flags.hasVat.getD false)) 0
                (s.products.getD []) }
        SellerName := seller.name
        SellerBranchCode := seller.branchCode.getD ""
        SellerBranchName := seller.branchName.getD ""
        BuyerTin := buyer.tin
        BuyerName := buyer.name
        BuyerBranchCode := buyer.branchCode.getD ""
        BuyerBranchName := buyer.branchName.getD ""
        ContractDoc := s.contract.map (fun c =>
          { ContractNo := c.no, ContractDate := c.date }) }

end ActBuilder

/-! ## Invoice builder (`invoice.ts`) -/

structure InvoiceOrgDraft where
  tin : String
  name : String
  vatRegCode : String
  account : String
  bankId : String
  address : String
deriving DecidableEq

structure InvoiceProductDraft where
  name : String
  catalogCode : String
  catalogName : Option String
  packageCode : String
  packageName : String
  quantity : ℚ
  price : ℚ
  vatRate : Option ℚ
  origin : ℤ
deriving DecidableEq

structure InvoiceFlags where
  hasVat : Option Bool
  hasExcise : Option Bool
  hasLgota : Option Bool
  hasCommittent : Option Bool
deriving DecidableEq

/-- `Partial<InvoiceDraft>`: the `InvoiceBuilder`'s accumulated payload. -/
structure InvoiceState where
  factura : Option ContractDraft := none
  contract : Option ContractDraft := none
  seller : Option InvoiceOrgDraft := none
  buyer : Option InvoiceOrgDraft := none
  products : Option (List InvoiceProductDraft) := none
  flags : Option InvoiceFlags := none
deriving DecidableEq

structure ApiInvoiceOrg where
  Name : String
  VatRegCode : String
  Account : String
  BankId : String
  Address : String
deriving DecidableEq

structure ApiInvoiceProduct where
  OrdNo : ℕ
  Name : String
  CatalogCode : String
  PackageCode : String
  PackageName : String
  Count : ℚ
  Summa : ℚ
  DeliverySum : ℚ
  VatRate : ℚ
  VatSum : ℚ
  DeliverySumWithVat : ℚ
  WithoutVat : Bool
  Origin : ℤ
deriving DecidableEq

structure ApiInvoiceProductList where
  Tin : String
  HasVat : Bool
  HasExcise : Bool
  HasLgota : Bool
  HasCommittent : Bool
  Products : List ApiInvoiceProduct
deriving DecidableEq

structure ApiInvoicePayload where
  Version : ℤ
  FacturaType : ℤ
  FacturaNo : String
  FacturaDate : String
  SellerTin : String
  Seller : ApiInvoiceOrg
  BuyerTin : String
  Buyer : ApiInvoiceOrg
  ProductList : ApiInvoiceProductList
  ContractDoc : Option ApiContractDoc
deriving DecidableEq

namespace InvoiceBuilder

/-- One product line of `InvoiceBuilder.build`'s `Products` map
(invoice.ts 375-396).  All numeric fields stay native numbers. -/
def buildProduct (hasVat : Bool) (i : ℕ) (product : InvoiceProductDraft) :
    ApiInvoiceProduct :=
  let deliverySum := product.quantity * product.price
  let vatRate := product.vatRate.getD 0
  let vatSum :=
    if hasVat = true ∧ vatRate > 0 then deliverySum * vatRate / 100 else 0
  let deliverySumWithVat := deliverySum + vatSum
  { OrdNo := i + 1
    Name := product.name
    CatalogCode := product.catalogCode
    PackageCode := product.packageCode
    PackageName := product.packageName
    Count := product.quantity
    Summa := deliverySumWithVat
    DeliverySum := deliverySum
    VatRate := vatRate
    VatSum := vatSum
    DeliverySumWithVat := deliverySumWithVat
    WithoutVat := !hasVat
    Origin := product.origin }

/-- `InvoiceBuilder.build` (invoice.ts 328-409). -/
def build (s : InvoiceState) : Except String ApiInvoicePayload :=
  match s.factura with
  | none => .error "Invoice factura information is required"
  | some factura =>
  match s.seller with
  | none => .error "Seller information is required"
  | some seller =>
  match s.buyer with
  | none => .error "Buyer information is required"
  | some buyer =>
  if s.products.getD [] = [] then
    .error "At least one product is required"
  else
    let flags := s.flags.getD
      { hasVat := none, hasExcise := none, hasLgota := none,
        hasCommittent := none }
    .ok
      { Version := 1
        FacturaType := 0
        FacturaNo := factura.no
        FacturaDate := factura.date
        SellerTin := seller.tin
        Seller :=
          { Name := seller.name
            VatRegCode := seller.vatRegCode
            Account := seller.account
            BankId := seller.bankId
            Address := seller.address }
        BuyerTin := buyer.tin
        Buyer :=
          { Name := buyer.name
            VatRegCode := buyer.vatRegCode
            Account := buyer.account
            BankId := buyer.bankId
            Address := buyer.address }
        ProductList :=
          { Tin := seller.tin
            HasVat := flags.hasVat.getD false
            HasExcise := flags.hasExcise.getD false
            HasLgota := flags.hasLgota.getD false
            HasCommittent := flags.hasCommittent.getD false
            Products :=
              mapWithIndex (buildProduct (flags.hasVat.getD false)) 0
                (s.products.getD []) }
        ContractDoc := s.contract.map (fun c =>
          { ContractNo := c.no, ContractDate := c.date }) }

end InvoiceBuilder

/-- `Except.ok` projection. -/
def exOk {ε α : Type} : Except ε α → Option α
  | .ok a => some a
  | .error _ => none

/-! ## Claim C1: per-line VAT computation (act and invoice builders) -/

/-- The document-level `HasVat` flag an act build uses
(`flags.hasVat ?? false` after `flags = this.payload.flags || \x7b\x7d`). -/
def actHasVat (s : ActState) : Bool :=
  ((s.flags.getD { hasVat := none, hasExcise := none }).hasVat).getD false

/-- The document-level `HasVat` flag an invoice build uses. -/
def invoiceHasVat (s : InvoiceState) : Bool :=
  ((s.flags.getD
      { hasVat := none, hasExcise := none, hasLgota := none,
        hasCommittent := none }).hasVat).getD false

/-- Amended per-line VAT property of one act product line: the VAT amount is
`count*price*vatRate/100` exactly when the document has VAT and the line's
rate is positive (the act serializes it two-decimal rounded), zero otherwise;
the line total is the pre-VAT total plus the VAT amount; with VAT disabled a
line without a per-line override gets `WithoutVat = true`. -/
def actVatLineOk (s : ActState) (i : ℕ) (dp : ActProductDraft) : Prop :=
  ∃ p, ActBuilder.build s = .ok p ∧
  ∃ q, p.ProductList.Products[i]? = some q ∧
    (actHasVat s = true ∧ dp.vatRate.getD 0 > 0 →
        q.VatSum = toFixed2 (dp.count * dp.price * (dp.vatRate.getD 0) / 100) ∧
        q.TotalSum = toFixed2 (dp.count * dp.price +
          dp.count * dp.price * (dp.vatRate.getD 0) / 100)) ∧
    (¬(actHasVat s = true ∧ dp.vatRate.getD 0 > 0) →
        q.VatSum = toFixed2 0 ∧ q.TotalSum = toFixed2 (dp.count * dp.price)) ∧
    (actHasVat s = false → dp.withoutVat = none → q.WithoutVat = true)

/-- Amended per-line VAT property of one invoice product line (all fields are
native numbers there). -/
def invoiceVatLineOk (s : InvoiceState) (i : ℕ) (dp : InvoiceProductDraft) :
    Prop :=
  ∃ p, InvoiceBuilder.build s = .ok p ∧
  ∃ q, p.ProductList.Products[i]? = some q ∧
    (invoiceHasVat s = true ∧ dp.vatRate.getD 0 > 0 →
        q.VatSum = dp.quantity * dp.price * (dp.vatRate.getD 0) / 100) ∧
    (¬(invoiceHasVat s = true ∧ dp.vatRate.getD 0 > 0) → q.VatSum = 0) ∧
    q.DeliverySumWithVat = dp.quantity * dp.price + q.VatSum ∧
    q.Summa = q.DeliverySumWithVat ∧
    (invoiceHasVat s = false → q.WithoutVat = true)

/-- Invoice draft with one product, `quantity = 1`, `price = 1`,
`vatRate = 1/2`, VAT enabled: the computed VAT amount is `1/200 = 0.005`,
which two-decimal rounding would turn into `0.01`. -/
def c1Invoice : InvoiceState :=
  { factura := some ⟨"INV-1", "2025-02-07"⟩
    seller := some ⟨"123456789", "S", "V1", "A1", "B1", "Addr1"⟩
    buyer := some ⟨"987654321", "B", "V2", "A2", "B2", "Addr2"⟩
    products := some [⟨"P", "C1", none, "PK", "PCS", 1, 1, some (1/2), 1⟩]
    flags := some ⟨some true, none, none, none⟩ }

/-! ## Claim C2: act string serialization vs invoice native numbers -/

/-- Amended serialization property of one act product line: the monetary
fields `TotalSumWithoutVat`, `VatSum` and `TotalSum` are two-decimal rounded
strings, while `Count` and `Summa` go through plain `toString` (no forced
two-decimal form). -/
def actSerializedLineOk (s : ActState) (i : ℕ) (dp : ActProductDraft) :
    Prop :=
  ∃ p, ActBuilder.build s = .ok p ∧
  ∃ q, p.ProductList.Products[i]? = some q ∧
  ∃ vat : ℚ,
    q.Count = numToString dp.count ∧
    q.TotalSumWithoutVat = toFixed2 (dp.count * dp.price) ∧
    q.VatSum = toFixed2 vat ∧
    q.TotalSum = toFixed2 (dp.count * dp.price + vat) ∧
    q.Summa = numToString (dp.count * dp.price + vat)

/-- Serialization property of one invoice product line: every numeric field
stays a native number. -/
def invoiceNumericLineOk (s : InvoiceState) (i : ℕ)
    (dp : InvoiceProductDraft) : Prop :=
  ∃ p, InvoiceBuilder.build s = .ok p ∧
  ∃ q, p.ProductList.Products[i]? = some q ∧
    q.Count = dp.quantity ∧
    q.DeliverySum = dp.quantity * dp.price ∧
    q.Summa = dp.quantity * dp.price + q.VatSum ∧
    q.DeliverySumWithVat = q.Summa

/-- Act draft matching the spec's concrete scenario: one product with
`count = 10`, `price = 1000`, `vatRate = 12`, VAT enabled. -/
def c2Act : ActState :=
  { act := some ⟨"ACT-1", "2025-02-07", none⟩
    seller := some ⟨"123456789", "S", none, none⟩
    buyer := some ⟨"987654321", "B", none, none⟩
    products := some [⟨"Srv", "CC", "CN", "PC", "PN", 10, 1000, some 12,
      none, none, none⟩]
    flags := some ⟨some true, none⟩ }

/-- Invoice draft used to instantiate the C2 theorem. -/
def c2wInvoice : InvoiceState :=
  { factura := some ⟨"INV-9", "2025-03-01"⟩
    seller := some ⟨"123456789", "S", "V1", "A1", "B1", "Addr1"⟩
    buyer := some ⟨"987654321", "B", "V2", "A2", "B2", "Addr2"⟩
    products := some [⟨"G", "C9", none, "PK", "PCS", 3, 25, some 15, 1⟩]
    flags := some ⟨some true, none, none, none⟩ }

/-- Act draft used to instantiate the C1 theorem: one product,
`count = 10`, `price = 1000`, `vatRate = 12`, VAT enabled. -/
def c1wAct : ActState :=
  { act := some ⟨"ACT-1", "2025-02-07", none⟩
    seller := some ⟨"123456789", "S", none, none⟩
    buyer := some ⟨"987654321", "B", none, none⟩
    products := some [⟨"Srv", "CC", "CN", "PC", "PN", 10, 1000, some 12,
      none, none, none⟩]
    flags := some ⟨some true, none⟩ }

/-! ## Transport waybill (TTN) builder (`ttn.ts`)

The builder keeps two stores: the DX-friendly draft `dxPayload`
(a `Partial<TtnDraft>`) filled by the setters, and the base `this.payload`
that the overridden `raw()` method `Object.assign`s into; `build()` generates
the API payload from the draft and then spreads `this.payload` over it. -/

structure TtnWaybillDraft where
  no : String
  date : String
  localType : Option ℤ
  deliveryType : ℤ
deriving DecidableEq

structure Party where
  tin : String
  name : String
  branchCode : Option String
  branchName : Option String
deriving DecidableEq

structure TruckDraft where
  regNo : String
  model : String
deriving DecidableEq

structure PersonDraft where
  pinfl : String
  fullName : String
deriving DecidableEq

structure TransportDraft where
  type : ℤ
  truck : TruckDraft
  trailer : Option TruckDraft
  driver : PersonDraft
deriving DecidableEq

structure PointDraft where
  address : String
  tin : String
  name : String
deriving DecidableEq

structure EmpowermentRefDraft where
  no : String
  date : String
  series : Option String
deriving DecidableEq

structure TtnProductDraft where
  name : String
  catalogCode : String
  catalogName : String
  packageCode : String
  packageName : String
  count : ℚ
  price : ℚ
  vatRate : Option ℚ
deriving DecidableEq

structure ProductGroupDraft where
  loadingPoint : PointDraft
  loadingTrustee : Option PersonDraft
  unloadingPoint : PointDraft
  unloadingTrustee : Option PersonDraft
  empowerment : Option EmpowermentRefDraft
  products : List TtnProductDraft
deriving DecidableEq

structure TtnTotalsDraft where
  distanceKm : ℚ
  pricePerKm : ℚ
deriving DecidableEq

structure TtnFlagsDraft where
  hasCommittent : Option Bool
  singleSidedType : Option ℤ
deriving DecidableEq

/-- `Partial<TtnDraft>`: the `TtnBuilder`'s accumulated `dxPayload`. -/
structure TtnDx where
  waybill : Option TtnWaybillDraft := none
  contract : Option ContractDraft := none
  consignor : Option Party := none
  consignee : Option Party := none
  carrier : Option Party := none
  freightForwarder : Option Party := none
  client : Option Party := none
  payer : Option Party := none
  transport : Option TransportDraft := none
  productGroups : Option (List ProductGroupDraft) := none
  totals : Option TtnTotalsDraft := none
  responsiblePerson : Option PersonDraft := none
  flags : Option TtnFlagsDraft := none
deriving DecidableEq

/-- The `TtnBuilder`'s full state: draft plus the raw-override store. -/
structure TtnState where
  dx : TtnDx := {}
  payload : List (String × Json) := []

structure ApiTtnProduct where
  OrdNo : ℕ
  CatalogCode : String
  CatalogName : String
  Name : String
  PackageCode : String
  PackageName : String
  Count : String
  Amount : String
  DeliverySum : String
deriving DecidableEq

structure ApiPoint where
  Address : String
  Tin : String
  Name : String
deriving DecidableEq

structure ApiPerson where
  Pinfl : String
  FullName : String
deriving DecidableEq

structure ApiEmpowermentRef where
  EmpowermentNo : String
  EmpowermentDate : String
  EmpowermentSeries : Option String
deriving DecidableEq

structure ApiTtnGroup where
  OrdNo : ℕ
  LoadingPoint : ApiPoint
  LoadingTrustee : Option ApiPerson
  UnloadingPoint : ApiPoint
  UnloadingTrustee : Option ApiPerson
  Empowerment : Option ApiEmpowermentRef
  ProductList : List ApiTtnProduct
deriving DecidableEq

structure ApiTruck where
  RegNo : String
  Model : String
deriving DecidableEq

structure ApiParty4 where
  Tin : String
  Name : String
  BranchCode : String
  BranchName : String
deriving DecidableEq

structure ApiRoadway where
  Truck : ApiTruck
  Trailer : Option ApiTruck
  Driver : ApiPerson
  ProductGroups : List ApiTtnGroup
deriving DecidableEq

structure ApiTtnPayload where
  WaybillLocalType : ℤ
  DeliveryType : ℤ
  WaybillNo : String
  WaybillDate : String
  ContractDoc : Option ApiContractDoc
  Consignor : ApiParty4
  Consignee : ApiParty4
  Carrier : ApiParty4
  FreightForwarder : Option ApiParty4
  Client : Option ApiParty4
  Payer : Option ApiParty4
  TransportType : ℤ
  Roadway : ApiRoadway
  ResponsiblePerson : ApiPerson
  TotalDistance : String
  DeliveryCost : String
  TotalDeliveryCost : String
  HasCommittent : Option Bool
  SingleSidedType : Option ℤ
  isValid : Bool
deriving DecidableEq

/-- `Partial<ProductGroupDraft>`: the nested group builder's `groupData`. -/
structure TtnGroupState where
  loadingPoint : Option PointDraft := none
  loadingTrustee : Option PersonDraft := none
  unloadingPoint : Option PointDraft := none
  unloadingTrustee : Option PersonDraft := none
  empowerment : Option EmpowermentRefDraft := none
  products : Option (List TtnProductDraft) := none
deriving DecidableEq

namespace TtnProductGroupBuilder

/-- Group setter `loadingPoint`. -/
def loadingPoint (g : TtnGroupState) (point : PointDraft) : TtnGroupState :=
  { g with loadingPoint := some point }

/-- Group setter `loadingTrustee`. -/
def loadingTrustee (g : TtnGroupState) (trustee : PersonDraft) :
    TtnGroupState :=
  { g with loadingTrustee := some trustee }

/-- Group setter `unloadingPoint`. -/
def unloadingPoint (g : TtnGroupState) (point : PointDraft) : TtnGroupState :=
  { g with unloadingPoint := some point }

/-- Group setter `unloadingTrustee`. -/
def unloadingTrustee (g : TtnGroupState) (trustee : PersonDraft) :
    TtnGroupState :=
  { g with unloadingTrustee := some trustee }

/-- Group setter `empowerment`. -/
def empowerment (g : TtnGroupState) (e : EmpowermentRefDraft) : TtnGroupState :=
  { g with empowerment := some e }

/-- Group setter `addProduct`. -/
def addProduct (g : TtnGroupState) (product : TtnProductDraft) :
    TtnGroupState :=
  { g with products := some (g.products.getD [] ++ [product]) }

/-- Group setter `addProducts`. -/
def addProducts (g : TtnGroupState) (products : List TtnProductDraft) :
    TtnGroupState :=
  { g with products := some (g.products.getD [] ++ products) }

/-- `TtnProductGroupBuilder.build` (ttn.ts 442-454): validates eagerly the
loading point, the unloading point, and a nonempty product list. -/
def build (g : TtnGroupState) : Except String ProductGroupDraft :=
  match g.loadingPoint with
  | none => .error "Loading point is required for product group"
  | some lp =>
  match g.unloadingPoint with
  | none => .error "Unloading point is required for product group"
  | some up =>
  if g.products.getD [] = [] then
    .error "At least one product is required for product group"
  else
    .ok
      { loadingPoint := lp
        loadingTrustee := g.loadingTrustee
        unloadingPoint := up
        unloadingTrustee := g.unloadingTrustee
        empowerment := g.empowerment
        products := g.products.getD [] }

end TtnProductGroupBuilder

namespace TtnBuilder

/-- `TtnBuilder.raw` (ttn.ts 513-517): `Object.assign(this.payload, data)`. -/
def raw (s : TtnState) (data : List (String × Json)) : TtnState :=
  { s with payload := objAssign s.payload data }

/-- `TtnBuilder.addProductGroup` (ttn.ts 752-763): runs the caller's
configuration callback on a fresh nested group builder and eagerly invokes
the nested `build()`, whose validation errors therefore surface at this
setter call, not at the parent's build time. -/
def addProductGroup (s : TtnState) (builderFn : TtnGroupState → TtnGroupState) :
    Except String TtnState :=
  match TtnProductGroupBuilder.build (builderFn {}) with
  | .error e => .error e
  | .ok productGroup =>
      .ok { s with dx := { s.dx with
        productGroups := some (s.dx.productGroups.getD [] ++ [productGroup]) } }

/-- One product line of the group map in `TtnBuilder.build` (ttn.ts 978-993). -/
def buildProduct (pricePerKm : ℚ) (productIndex : ℕ)
    (product : TtnProductDraft) : ApiTtnProduct :=
  let amount := product.count * product.price
  let deliverySum := jsRound (amount / 100 * pricePerKm)
  { OrdNo := productIndex + 1
    CatalogCode := product.catalogCode
    CatalogName := product.catalogName
    Name := product.name
    PackageCode := product.packageCode
    PackageName := product.packageName
    Count := numToString product.count
    Amount := numToString amount
    DeliverySum := numToString (deliverySum : ℚ) }

/-- One product group of `TtnBuilder.build` (ttn.ts 939-994). -/
def buildGroup (pricePerKm : ℚ) (groupIndex : ℕ) (group : ProductGroupDraft) :
    ApiTtnGroup :=
  { OrdNo := groupIndex + 1
    LoadingPoint :=
      { Address := group.loadingPoint.address
        Tin := group.loadingPoint.tin
        Name := group.loadingPoint.name }
    LoadingTrustee := group.loadingTrustee.map (fun t =>
      { Pinfl := t.pinfl, FullName := t.fullName })
    UnloadingPoint :=
      { Address := group.unloadingPoint.address
        Tin := group.unloadingPoint.tin
        Name := group.unloadingPoint.name }
    UnloadingTrustee := group.unloadingTrustee.map (fun t =>
      { Pinfl := t.pinfl, FullName := t.fullName })
    Empowerment := group.empowerment.map (fun e =>
      { EmpowermentNo := e.no
        EmpowermentDate := e.date
        EmpowermentSeries :=
          match e.series with
          | some ser => if ser = "" then none else some ser
          | none => none })
    ProductList := mapWithIndex (buildProduct pricePerKm) 0 group.products }

/-- Party block projection (tin, name, branch defaults to empty string). -/
def buildParty (p : Party) : ApiParty4 :=
  { Tin := p.tin
    Name := p.name
    BranchCode := p.branchCode.getD ""
    BranchName := p.branchName.getD "" }

/-- The draft-to-API transformation of `TtnBuilder.build` (ttn.ts 836-1015),
before the raw-override spread. -/
def buildDx (dx : TtnDx) : Except String ApiTtnPayload :=
  match dx.waybill with
  | none => .error "Waybill information is required"
  | some waybill =>
  match dx.consignor with
  | none => .error "Consignor is required"
  | some consignor =>
  match dx.consignee with
  | none => .error "Consignee is required"
  | some consignee =>
  match dx.carrier with
  | none => .error "Carrier is required"
  | some carrier =>
  match dx.transport with
  | none => .error "Transport information is required"
  | some transport =>
  if dx.productGroups.getD [] = [] then
    .error "At least one product group is required"
  else
  match dx.totals with
  | none => .error "Totals information is required"
  | some totals =>
  match dx.responsiblePerson with
  | none => .error "Responsible person is required"
  | some responsiblePerson =>
  let totalDeliveryCost := totals.distanceKm * totals.pricePerKm
  .ok
    { WaybillLocalType := waybill.localType.getD 0
      DeliveryType := waybill.deliveryType
      WaybillNo := waybill.no
      WaybillDate := waybill.date
      ContractDoc := dx.contract.map (fun c =>
        { ContractNo := c.no, ContractDate := c.date })
      Consignor := buildParty consignor
      Consignee := buildParty consignee
      Carrier := buildParty carrier
      FreightForwarder := dx.freightForwarder.map buildParty
      Client := dx.client.map buildParty
      Payer := dx.payer.map buildParty
      TransportType := transport.type
      Roadway :=
        { Truck := { RegNo := transport.truck.regNo
                     Model := transport.truck.model }
          Trailer := transport.trailer.map (fun t =>
            { RegNo := t.regNo, Model := t.model })
          Driver := { Pinfl := transport.driver.pinfl
                      FullName := transport.driver.fullName }
          ProductGroups :=
            mapWithIndex (buildGroup totals.pricePerKm) 0
              (dx.productGroups.getD []) }
      ResponsiblePerson := { Pinfl := responsiblePerson.pinfl
                             FullName := responsiblePerson.fullName }
      TotalDistance := toFixed2 totals.distanceKm
      DeliveryCost := numToString totals.pricePerKm
      TotalDeliveryCost := toFixed2 totalDeliveryCost
      HasCommittent := dx.flags.bind (fun f => f.hasCommittent)
      SingleSidedType := dx.flags.bind (fun f => f.singleSidedType)
      isValid := true }

end TtnBuilder

/-- A present field of a JavaScript object literal; an absent conditional
spread contributes nothing. -/
def optField (k : String) : Option Json → List (String × Json)
  | some v => [(k, v)]
  | none => []

def ApiTtnProduct.toJson (p : ApiTtnProduct) : Json :=
  Json.obj
    [("OrdNo", .num p.OrdNo), ("CatalogCode", .str p.CatalogCode),
     ("CatalogName", .str p.CatalogName), ("Name", .str p.Name),
     ("PackageCode", .str p.PackageCode), ("PackageName", .str p.PackageName),
     ("Count", .str p.Count), ("Amount", .str p.Amount),
     ("DeliverySum", .str p.DeliverySum)]

def ApiPoint.toJson (p : ApiPoint) : Json :=
  Json.obj [("Address", .str p.Address), ("Tin", .str p.Tin),
    ("Name", .str p.Name)]

def ApiPerson.toJson (p : ApiPerson) : Json :=
  Json.obj [("Pinfl", .str p.Pinfl), ("FullName", .str p.FullName)]

def ApiEmpowermentRef.toJson (e : ApiEmpowermentRef) : Json :=
  Json.obj
    ([("EmpowermentNo", .str e.EmpowermentNo),
      ("EmpowermentDate", .str e.EmpowermentDate)] ++
     optField "EmpowermentSeries" (e.EmpowermentSeries.map Json.str))

def ApiTtnGroup.toJson (g : ApiTtnGroup) : Json :=
  Json.obj
    ([("OrdNo", .num g.OrdNo), ("LoadingPoint", g.LoadingPoint.toJson)] ++
     optField "LoadingTrustee" (g.LoadingTrustee.map ApiPerson.toJson) ++
     [("UnloadingPoint", g.UnloadingPoint.toJson)] ++
     optField "UnloadingTrustee" (g.UnloadingTrustee.map ApiPerson.toJson) ++
     optField "Empowerment" (g.Empowerment.map ApiEmpowermentRef.toJson) ++
     [("ProductList", Json.arr (g.ProductList.map ApiTtnProduct.toJson))])

def ApiTruck.toJson (t : ApiTruck) : Json :=
  Json.obj [("RegNo", .str t.RegNo), ("Model", .str t.Model)]

def ApiContractDoc.toJson (c : ApiContractDoc) : Json :=
  Json.obj [("ContractNo", .str c.ContractNo),
    ("ContractDate", .str c.ContractDate)]

/-- The generated TTN API payload as the JavaScript object literal of
ttn.ts 855-1015, key for key in source order (conditional spreads included
only when present; party blocks rename their keys per party). -/
def encodeTtn (api : ApiTtnPayload) : List (String × Json) :=
  [("WaybillLocalType", .num api.WaybillLocalType),
   ("DeliveryType", .num api.DeliveryType),
   ("WaybillDoc", Json.obj [("WaybillNo", .str api.WaybillNo),
      ("WaybillDate", .str api.WaybillDate)])] ++
  optField "ContractDoc" (api.ContractDoc.map ApiContractDoc.toJson) ++
  [("Consignor", Json.obj
      [("ConsignorTin", .str api.Consignor.Tin),
       ("ConsignorName", .str api.Consignor.Name),
       ("ConsignorBranchCode", .str api.Consignor.BranchCode),
       ("ConsignorBranchName", .str api.Consignor.BranchName)]),
   ("Consignee", Json.obj
      [("ConsigneeTin", .str api.Consignee.Tin),
       ("ConsigneeName", .str api.Consignee.Name),
       ("ConsigneeBranchCode", .str api.Consignee.BranchCode),
       ("ConsigneeBranchName", .str api.Consignee.BranchName)]),
   ("Carrier", Json.obj
      [("CarrierTin", .str api.Carrier.Tin),
       ("CarrierName", .str api.Carrier.Name),
       ("CarrierBranchCode", .str api.Carrier.BranchCode),
       ("CarrierBranchName", .str api.Carrier.BranchName)])] ++
  optField "FreightForwarder" (api.FreightForwarder.map (fun p => Json.obj
      [("FreightForwarderTin", .str p.Tin),
       ("FreightForwarderName", .str p.Name),
       ("FreightForwarderBranchCode", .str p.BranchCode),
       ("FreightForwarderBranchName", .str p.BranchName)])) ++
  optField "Client" (api.Client.map (fun p => Json.obj
      [("ClientTin", .str p.Tin), ("ClientName", .str p.Name),
       ("ClientBranchCode", .str p.BranchCode),
       ("ClientBranchName", .str p.BranchName)])) ++
  optField "Payer" (api.Payer.map (fun p => Json.obj
      [("PayerTin", .str p.Tin), ("PayerName", .str p.Name),
       ("PayerBranchCode", .str p.BranchCode),
       ("PayerBranchName", .str p.BranchName)])) ++
  [("TransportType", .num api.TransportType),
   ("Roadway", Json.obj
      ([("Truck", api.Roadway.Truck.toJson)] ++
       optField "Trailer" (api.Roadway.Trailer.map ApiTruck.toJson) ++
       [("Driver", api.Roadway.Driver.toJson),
        ("ProductGroups",
          Json.arr (api.Roadway.ProductGroups.map ApiTtnGroup.toJson))])),
   ("ResponsiblePerson", api.ResponsiblePerson.toJson),
   ("TotalDistance", .str api.TotalDistance),
   ("DeliveryCost", .str api.DeliveryCost),
   ("TotalDeliveryCost", .str api.TotalDeliveryCost)] ++
  optField "HasCommittent" (api.HasCommittent.map Json.bool) ++
  optField "SingleSidedType" (api.SingleSidedType.map (fun n => Json.num n)) ++
  [("isValid", .bool api.isValid)]

/-- `TtnBuilder.build` (ttn.ts 836-1019): generate from the draft, then
return `\x7b...apiPayload, ...this.payload\x7d`. -/
def TtnBuilder.build (s : TtnState) : Except String Json :=
  (TtnBuilder.buildDx s.dx).map
    (fun api => Json.obj (objAssign (encodeTtn api) s.payload))

/-- The transport waybill draft sections whose absence makes `build()` throw
(ttn.ts 840-849). -/
abbrev ttnValid (dx : TtnDx) : Prop :=
  dx.waybill ≠ none ∧ dx.consignor ≠ none ∧ dx.consignee ≠ none ∧
  dx.carrier ≠ none ∧ dx.transport ≠ none ∧ dx.productGroups.getD [] ≠ [] ∧
  dx.totals ≠ none ∧ dx.responsiblePerson ≠ none

/-! ## Claim C3: transport waybill delivery-cost derivation -/

/-- Delivery-cost property of a valid transport-waybill state: per product
line `Amount = toString(count*price)` and
`DeliverySum = toString(round(amount/100*pricePerKm))`; at document level
`TotalDeliveryCost = toFixed2(distanceKm*pricePerKm)` and
`TotalDistance = toFixed2(distanceKm)`. -/
def ttnDeliveryOk (s : TtnState) : Prop :=
  ∃ api, TtnBuilder.buildDx s.dx = .ok api ∧
    (s.payload = [] → TtnBuilder.build s = .ok (Json.obj (encodeTtn api))) ∧
    ∀ t : TtnTotalsDraft, s.dx.totals = some t →
      api.TotalDeliveryCost = toFixed2 (t.distanceKm * t.pricePerKm) ∧
      api.TotalDistance = toFixed2 t.distanceKm ∧
      ∀ (j : ℕ) (g : ProductGroupDraft),
        (s.dx.productGroups.getD [])[j]? = some g →
      ∃ ag : ApiTtnGroup, api.Roadway.ProductGroups[j]? = some ag ∧
      ∀ (i : ℕ) (dp : TtnProductDraft), g.products[i]? = some dp →
      ∃ q : ApiTtnProduct, ag.ProductList[i]? = some q ∧
        q.Amount = numToString (dp.count * dp.price) ∧
        q.DeliverySum =
          numToString ((jsRound (dp.count * dp.price / 100 * t.pricePerKm) : ℚ))

/-- Transport-waybill state used to instantiate the C3 theorem, with the
spec's concrete totals `distanceKm = 120`, `pricePerKm = 10000`. -/
def c3wTtn : TtnState :=
  { dx :=
      { waybill := some ⟨"TTN-1", "2025-02-07", none, 2⟩
        consignor := some ⟨"123456789", "A", none, none⟩
        consignee := some ⟨"987654321", "B", none, none⟩
        carrier := some ⟨"555444333", "C", none, none⟩
        transport := some ⟨1, ⟨"01 386 EJA", "KAMAZ"⟩, none,
          ⟨"30601851234567", "Driver D"⟩⟩
        productGroups := some [⟨⟨"Addr1", "123456789", "W"⟩, none,
          ⟨"Addr2", "987654321", "M"⟩, none, none,
          [⟨"Wheat", "WH1", "Grain", "TON", "ton", 100, 50000, none⟩]⟩]
        totals := some ⟨120, 10000⟩
        responsiblePerson := some ⟨"30601851234567", "Resp R"⟩
        flags := none }
    payload := [] }

/-! ## Claim C4: 1-based ordinal numbering in insertion order -/

/-- Ordinal property of a valid transport-waybill state: each group's
`OrdNo` is its 1-based position, and each product's `OrdNo` is its 1-based
position within its group.  The drafts carry no caller-supplied ordinal at
all, so the assignment depends on insertion order alone. -/
def ttnOrdinalsOk (s : TtnState) : Prop :=
  ∃ api, TtnBuilder.buildDx s.dx = .ok api ∧
    ∀ (j : ℕ) (g : ProductGroupDraft),
      (s.dx.productGroups.getD [])[j]? = some g →
    ∃ ag : ApiTtnGroup, api.Roadway.ProductGroups[j]? = some ag ∧
      ag.OrdNo = j + 1 ∧
      ∀ (i : ℕ) (dp : TtnProductDraft), g.products[i]? = some dp →
      ∃ q : ApiTtnProduct, ag.ProductList[i]? = some q ∧ q.OrdNo = i + 1

/-- Transport-waybill state used to instantiate the C4 theorem: two groups,
the second with two products. -/
def c4wTtn : TtnState :=
  { dx :=
      { waybill := some ⟨"TTN-2", "2025-02-08", some 0, 1⟩
        consignor := some ⟨"111111111", "A", none, none⟩
        consignee := some ⟨"222222222", "B", none, none⟩
        carrier := some ⟨"333333333", "C", none, none⟩
        transport := some ⟨1, ⟨"01 111 AAA", "MAN"⟩, none,
          ⟨"11111111111111", "Drv"⟩⟩
        productGroups := some
          [⟨⟨"L1", "111111111", "P1"⟩, none, ⟨"U1", "222222222", "Q1"⟩, none,
            none, [⟨"G1", "C1", "N1", "PK", "pc", 1, 10, none⟩]⟩,
           ⟨⟨"L2", "111111111", "P2"⟩, none, ⟨"U2", "222222222", "Q2"⟩, none,
            none, [⟨"G2", "C2", "N2", "PK", "pc", 2, 20, none⟩,
                   ⟨"G3", "C3", "N3", "PK", "pc", 3, 30, none⟩]⟩]
        totals := some ⟨10, 1000⟩
        responsiblePerson := some ⟨"22222222222222", "Rsp"⟩
        flags := none }
    payload := [] }

/-! ## Claim C5: transport-waybill raw overrides merge shallowly -/

/-- Transport-waybill state with raw overrides used to instantiate C5:
`raw` supplied a fresh field, an override of a generated scalar, and a
nested-object override of `WaybillDoc`. -/
def c5wTtn : TtnState :=
  { dx := c4wTtn.dx
    payload :=
      [("FieldA", Json.num 1),
       ("TotalDeliveryCost", Json.str "override"),
       ("WaybillDoc", Json.obj [("WaybillNo", Json.str "RAW-1")])] }

/-! ## Claim C7: validation timing — setters versus build() -/

/-- A fully configured product group, as produced by a callback that chains
`loadingPoint`, `unloadingPoint` and `addProduct`. -/
def c7FullGroup : TtnGroupState :=
  TtnProductGroupBuilder.addProduct
    (TtnProductGroupBuilder.unloadingPoint
      (TtnProductGroupBuilder.loadingPoint {} ⟨"A", "1", "N"⟩)
      ⟨"B", "2", "M"⟩)
    ⟨"G", "C", "CN", "PK", "pc", 5, 100, none⟩

/-- A group configured with only a loading point. -/
def c7HalfGroup : TtnGroupState := { loadingPoint := some ⟨"A", "1", "N"⟩ }

/-! ## Recursive deep merge (empowerment / letter-to-authority builders)

`deepMerge(target, source)` copies the target's own enumerable properties and
then walks the source's: when both sides hold an `instanceof Object` value
(object or array) under the same key it recurses, otherwise the source value
wins (empowerment.ts 674-686, letter-nk.ts 536-548). -/

/-- `instanceof Object`: true for objects and arrays, false for
primitives. -/
def Json.isObjLike : Json → Bool
  | .obj _ => true
  | .arr _ => true
  | _ => false

/-- Index-keyed fields, as spreading an array into an object produces. -/
def arrFields : ℕ → List Json → List (String × Json)
  | _, [] => []
  | i, x :: xs => (toString i, x) :: arrFields (i + 1) xs

/-- The own enumerable properties a spread `\x7b...v\x7d` copies: an object's
fields, an array's index-keyed elements, a string's index-keyed characters,
nothing for other primitives. -/
def Json.spreadFields : Json → List (String × Json)
  | .obj fields => fields
  | .arr elems => arrFields 0 elems
  | .str s => arrFields 0 (s.data.map (fun c => Json.str c.toString))
  | _ => []

mutual
/-- The `deepMerge` helper of the empowerment and letter builders:
`result = \x7b...target\x7d`, then one write per source property. -/
def deepMerge (target source : Json) : Json :=
  match source with
  | .obj fs => Json.obj (objAssign target.spreadFields (dmFields target fs))
  | .arr xs => Json.obj (objAssign target.spreadFields (dmArr target 0 xs))
  | _ => Json.obj (objAssign target.spreadFields (Json.spreadFields source))

/-- The loop body of `deepMerge` over an object source's properties. -/
def dmFields (target : Json) : List (String × Json) → List (String × Json)
  | [] => []
  | (k, v) :: rest =>
      (k, if v.isObjLike then
            match jLookup (Json.spreadFields target) k with
            | some tv => if tv.isObjLike then deepMerge tv v else v
            | none => v
          else v) :: dmFields target rest

/-- The loop body of `deepMerge` over an array source's indexed elements. -/
def dmArr (target : Json) : ℕ → List Json → List (String × Json)
  | _, [] => []
  | i, x :: rest =>
      (toString i, if x.isObjLike then
            match jLookup (Json.spreadFields target) (toString i) with
            | some tv => if tv.isObjLike then deepMerge tv x else x
            | none => x
          else x) :: dmArr target (i + 1) rest
end

/-- The merged value `deepMerge` stores for one source property. -/
def dmVal (target : Json) (k : String) (v : Json) : Json :=
  if v.isObjLike then
    match jLookup (Json.spreadFields target) k with
    | some tv => if tv.isObjLike then deepMerge tv v else v
    | none => v
  else v

/-- Property read on a JSON value (an object's property, nothing else). -/
def jGet : Json → String → Option Json
  | .obj fields, k => jLookup fields k
  | _, _ => none

/-- Projection of a boolean JSON value. -/
def Json.asBool : Json → Option Bool
  | .bool b => some b
  | _ => none

/-- Projection of a numeric JSON value. -/
def Json.asNum : Json → Option ℚ
  | .num q => some q
  | _ => none

/-- Projection of a string JSON value. -/
def Json.asStr : Json → Option String
  | .str s => some s
  | _ => none

/-- `x || null` on an optional string: empty strings collapse to null. -/
def strOrNull : Option String → Json
  | some s => if s = "" then Json.null else Json.str s
  | none => Json.null

/-- `x || ''` on an optional string. -/
def strOrEmpty (o : Option String) : Json :=
  Json.str (o.getD "")

/-! ## Empowerment builder (`empowerment.ts`) -/

structure AgentPassportDraft where
  number : Option String
  issuedBy : Option String
  issueDate : Option String
deriving DecidableEq

structure AgentDraft where
  fio : String
  pinfl : String
  jobTitle : Option String
  passport : Option AgentPassportDraft
deriving DecidableEq

structure CompanyDraft where
  tin : String
  name : String
  account : String
  bankId : String
  address : String
  director : Option String
  accountant : Option String
  branchCode : Option String
  branchName : Option String
deriving DecidableEq

structure EmpowermentProductDraft where
  name : String
  catalogCode : String
  catalogName : Option String
  measureId : String
  count : ℚ
deriving DecidableEq

structure EmpowermentDocDraft where
  no : String
  issueDate : String
  expireDate : String
deriving DecidableEq

/-- `Partial<EmpowermentDraft>` with `products` seeded to `[]`
(empowerment.ts 329-331). -/
structure EmpowermentDraftState where
  empowerment : Option EmpowermentDocDraft := none
  contract : Option ContractDraft := none
  agent : Option AgentDraft := none
  seller : Option CompanyDraft := none
  buyer : Option CompanyDraft := none
  products : List EmpowermentProductDraft := []
deriving DecidableEq

/-- The `EmpowermentBuilder`'s state: draft plus the base builder's
`this.payload` populated by `raw()`. -/
structure EmpowermentState where
  draft : EmpowermentDraftState := {}
  payload : List (String × Json) := []

namespace EmpowermentBuilder

/-- `raw` delegates to the base `Object.assign`. -/
def raw (s : EmpowermentState) (data : List (String × Json)) :
    EmpowermentState :=
  { s with payload := objAssign s.payload data }

/-- Seller/buyer projection (empowerment.ts 605-626). -/
def companyJson (c : CompanyDraft) : Json :=
  Json.obj
    [("Name", .str c.name), ("Address", .str c.address),
     ("BankAccount", .str c.account), ("BankId", .str c.bankId),
     ("Director", strOrEmpty c.director),
     ("Accountant", strOrEmpty c.accountant),
     ("BranchCode", strOrEmpty c.branchCode),
     ("BranchName", strOrEmpty c.branchName)]

/-- One product line (empowerment.ts 629-636). -/
def productJson (i : ℕ) (product : EmpowermentProductDraft) : Json :=
  Json.obj
    [("OrdNo", .num (i + 1)), ("CatalogCode", .str product.catalogCode),
     ("CatalogName", strOrEmpty product.catalogName),
     ("Name", .str product.name), ("MeasureId", .str product.measureId),
     ("Count", .str (numToString product.count))]

/-- The generated empowerment API payload (empowerment.ts 586-662). -/
def genPayload (emp : EmpowermentDocDraft) (agent : AgentDraft)
    (seller buyer : CompanyDraft) (contract : Option ContractDraft)
    (products : List EmpowermentProductDraft) : List (String × Json) :=
  [("EmpowermentDoc", Json.obj
      [("EmpowermentNo", .str emp.no),
       ("EmpowermentDateOfIssue", .str emp.issueDate),
       ("EmpowermentDateOfExpire", .str emp.expireDate)]),
   ("ContractDoc",
      match contract with
      | some c => Json.obj [("ContractNo", .str c.no),
          ("ContractDate", .str c.date)]
      | none => Json.obj [("ContractNo", .str ""), ("ContractDate", .str "")]),
   ("Agent", Json.obj
      [("JobTitle", strOrNull agent.jobTitle),
       ("Fio", .str agent.fio),
       ("Passport", Json.obj
          [("Number", strOrNull (agent.passport.bind (fun p => p.number))),
           ("IssuedBy", strOrNull (agent.passport.bind (fun p => p.issuedBy))),
           ("DateOfIssue",
             strOrNull (agent.passport.bind (fun p => p.issueDate)))]),
       ("AgentTin", .str agent.pinfl)]),
   ("SellerTin", .str seller.tin),
   ("Seller", companyJson seller),
   ("BuyerTin", .str buyer.tin),
   ("Buyer", companyJson buyer),
   ("ProductList", Json.obj
      [("Tin", .str seller.tin),
       ("HasExcise", .bool false),
       ("HasVat", .bool false),
       ("Products", Json.arr (mapWithIndex productJson 0 products))])]

/-- `EmpowermentBuilder.build` (empowerment.ts 564-667): validate, generate,
then deep-merge the `raw()` data over the generated payload. -/
def build (s : EmpowermentState) : Except String Json :=
  match s.draft.empowerment with
  | none => .error "Empowerment information is required"
  | some emp =>
  match s.draft.agent with
  | none => .error "Agent information is required"
  | some agent =>
  match s.draft.seller with
  | none => .error "Seller information is required"
  | some seller =>
  match s.draft.buyer with
  | none => .error "Buyer information is required"
  | some buyer =>
  if s.draft.products = [] then
    .error "At least one product is required"
  else
    .ok (deepMerge
      (Json.obj (genPayload emp agent seller buyer s.draft.contract
        s.draft.products))
      (Json.obj s.payload))

end EmpowermentBuilder

/-! ## Letter-to-tax-authority builder (`letter-nk.ts`) -/

structure LetterHeadDraft where
  branchCode : Option String
  branchName : Option String
  email : Option String
  website : Option String
  logoBase64 : Option String
  phones : Option (List String)
deriving DecidableEq

structure LetterPartyDraft where
  name : String
  tin : String
  head : Option LetterHeadDraft
deriving DecidableEq

structure LetterAttachmentDraft where
  filename : String
  mimeType : String
  size : ℚ
  base64 : String
  description : Option String
deriving DecidableEq

structure LetterDocDraft where
  number : String
  date : String
deriving DecidableEq

/-- `Partial<LetterNKDraft>`: the `LetterNKBuilder`'s accumulated draft. -/
structure LetterDraftState where
  letter : Option LetterDocDraft := none
  sender : Option LetterPartyDraft := none
  recipient : Option LetterPartyDraft := none
  html : Option String := none
  attachments : Option (List LetterAttachmentDraft) := none
deriving DecidableEq

structure LetterNKState where
  draft : LetterDraftState := {}
  payload : List (String × Json) := []

namespace LetterNKBuilder

/-- `raw` delegates to the base `Object.assign`. -/
def raw (s : LetterNKState) (data : List (String × Json)) : LetterNKState :=
  { s with payload := objAssign s.payload data }

/-- Head transform (letter-nk.ts 479-498): every field defaults to the empty
string except `Website`, which defaults to `null` (an explicitly supplied
website is kept even when empty). -/
def headJson (head : Option LetterHeadDraft) : Json :=
  let h := head.getD ⟨none, none, none, none, none, none⟩
  Json.obj
    [("BranchCode", strOrEmpty h.branchCode),
     ("BranchName", strOrEmpty h.branchName),
     ("Email", strOrEmpty h.email),
     ("Website", match h.website with
       | some w => Json.str w
       | none => Json.null),
     ("LogoBase64", strOrEmpty h.logoBase64),
     ("Phones", Json.arr ((h.phones.getD []).map Json.str))]

/-- The generated letter payload (letter-nk.ts 500-524). -/
def genPayload (letter : LetterDocDraft) (sender recipient : LetterPartyDraft)
    (html : String) (attachments : List LetterAttachmentDraft) :
    List (String × Json) :=
  [("Letter", Json.obj [("Number", .str letter.number),
      ("Date", .str letter.date)]),
   ("Sender", Json.obj [("Name", .str sender.name), ("Tin", .str sender.tin),
      ("Head", headJson sender.head)]),
   ("Recipient", Json.obj [("Name", .str recipient.name),
      ("Tin", .str recipient.tin), ("Head", headJson recipient.head)]),
   ("Html", .str html),
   ("Attachments", Json.arr (attachments.map (fun a => Json.obj
      [("Filename", .str a.filename), ("MimeType", .str a.mimeType),
       ("Size", .num a.size), ("ContentBase64", .str a.base64),
       ("Description", strOrEmpty a.description)])))]

/-- `LetterNKBuilder.build` (letter-nk.ts 460-529).  The `html` check is a
JavaScript truthiness test, so an empty string also fails validation. -/
def build (s : LetterNKState) : Except String Json :=
  match s.draft.letter with
  | none => .error "Letter information is required"
  | some letter =>
  match s.draft.sender with
  | none => .error "Sender information is required"
  | some sender =>
  match s.draft.recipient with
  | none => .error "Recipient information is required"
  | some recipient =>
  if s.draft.html.getD "" = "" then
    .error "HTML content is required"
  else
    .ok (deepMerge
      (Json.obj (genPayload letter sender recipient (s.draft.html.getD "")
        (s.draft.attachments.getD [])))
      (Json.obj s.payload))

end LetterNKBuilder

/-! ## Founders' protocol builder (`founders-protocol.ts`) -/

/-- A JavaScript `number | string` union (the participant `share`). -/
inductive NumOrStr where
  | num (q : ℚ)
  | str (s : String)
deriving DecidableEq

/-- `String(x)` on a `number | string`. -/
def NumOrStr.toStr : NumOrStr → String
  | .num q => numToString q
  | .str s => s

structure ProtocolParticipantDraft where
  tin : String
  name : String
  companyTin : Option String
  companyName : Option String
  share : NumOrStr
  citizenship : Option String
  chairman : Option Bool
  secretary : Option Bool
deriving DecidableEq

structure ProtocolPartDraft where
  title : String
  body : String
deriving DecidableEq

structure ProtocolDocDraft where
  name : String
  no : String
  place : String
  date : String
deriving DecidableEq

structure ProtocolCompanyDraft where
  tin : String
  name : String
  fizTin : String
  fio : String
  bankId : Option String
  oked : Option ℚ
  account : Option String
  address : String
  workPhone : Option String
  mobile : Option String
deriving DecidableEq

/-- `Partial<FoundersProtocolDraft>` with `participants` and `parts` seeded
to `[]` (founders-protocol.ts 253-256). -/
structure FoundersProtocolDraftState where
  document : Option ProtocolDocDraft := none
  company : Option ProtocolCompanyDraft := none
  participants : List ProtocolParticipantDraft := []
  parts : List ProtocolPartDraft := []
deriving DecidableEq

structure FoundersProtocolState where
  draft : FoundersProtocolDraftState := {}
  payload : List (String × Json) := []

namespace FoundersProtocolBuilder

/-- `raw` delegates to the base `Object.assign`. -/
def raw (s : FoundersProtocolState) (data : List (String × Json)) :
    FoundersProtocolState :=
  { s with payload := objAssign s.payload data }

/-- The generated company block (founders-protocol.ts 482-493). -/
def companyJson (c : ProtocolCompanyDraft) : Json :=
  Json.obj
    [("tin", .str c.tin), ("name", .str c.name), ("fiztin", .str c.fizTin),
     ("fio", .str c.fio), ("bankid", strOrEmpty c.bankId),
     ("oked", .num (c.oked.getD 0)), ("account", strOrEmpty c.account),
     ("address", .str c.address), ("workphone", strOrEmpty c.workPhone),
     ("mobile", strOrEmpty c.mobile)]

/-- The generated founders-protocol payload (founders-protocol.ts 475-509). -/
def genPayload (doc : ProtocolDocDraft) (company : ProtocolCompanyDraft)
    (participants : List ProtocolParticipantDraft)
    (parts : List ProtocolPartDraft) : List (String × Json) :=
  [("documentdoc", Json.obj
      [("documentname", .str doc.name), ("documentno", .str doc.no),
       ("documentplace", .str doc.place), ("documentdate", .str doc.date)]),
   ("company", companyJson company),
   ("participants", Json.arr (participants.map (fun p => Json.obj
      [("tin", .str p.tin), ("name", .str p.name),
       ("companyTaxId", strOrEmpty p.companyTin),
       ("companyname", strOrEmpty p.companyName),
       ("share", .str p.share.toStr),
       ("citizenship", strOrEmpty p.citizenship),
       ("ischairman", .bool (p.chairman.getD false)),
       ("issecretary", .bool (p.secretary.getD false))]))),
   ("parts", Json.arr (mapWithIndex (fun i part => Json.obj
      [("ordno", .num (i + 1)), ("title", .str part.title),
       ("body", .str part.body)]) 0 parts))]

/-- `FoundersProtocolBuilder.build` (founders-protocol.ts 456-516): validate,
generate, `Object.assign(this.payload, apiPayload)` — mutating the builder's
raw store, with the generated values overwriting raw data at colliding keys —
then return the base builder's shallow copy of `this.payload`. -/
def build (s : FoundersProtocolState) :
    Except String (Json × FoundersProtocolState) :=
  match s.draft.document with
  | none => .error "Document information is required"
  | some doc =>
  match s.draft.company with
  | none => .error "Company information is required"
  | some company =>
  if s.draft.participants = [] then
    .error "At least one participant is required"
  else if s.draft.parts = [] then
    .error "At least one agenda part is required"
  else
    let payload' := objAssign s.payload
      (genPayload doc company s.draft.participants s.draft.parts)
    .ok (Json.obj payload', { s with payload := payload' })

end FoundersProtocolBuilder

/-! ## Multi-party and arbitrary document builders
(`multi-party.ts`, `arbitrary.ts`) -/

structure MPDocumentDraft where
  no : String
  date : String
  name : Option String
deriving DecidableEq

structure MPOrgDraft where
  tin : String
  name : String
  address : String
  branchCode : Option String
  branchName : Option String
deriving DecidableEq

structure MPClientDraft where
  tin : String
  name : String
  address : String
deriving DecidableEq

/-- `Partial<MultiPartyDocumentDraft>`. -/
structure MultiPartyDraftState where
  document : Option MPDocumentDraft := none
  contract : Option ContractDraft := none
  owner : Option MPOrgDraft := none
  clients : Option (List MPClientDraft) := none
  pdfBase64 : Option String := none
deriving DecidableEq

structure MultiPartyState where
  dxPayload : MultiPartyDraftState := {}
  payload : List (String × Json) := []

/-- The fields a spread of an optional raw value contributes
(`...(this.payload as any).data`). -/
def spreadOpt : Option Json → List (String × Json)
  | some j => j.spreadFields
  | none => []

namespace MultiPartyDocumentBuilder

/-- `raw` delegates to the base `Object.assign`. -/
def raw (s : MultiPartyState) (data : List (String × Json)) :
    MultiPartyState :=
  { s with payload := objAssign s.payload data }

/-- Per-client validation (multi-party.ts 388-398); empty strings are falsy
and therefore rejected. -/
def validateClients : ℕ → List MPClientDraft → Except String Unit
  | _, [] => .ok ()
  | i, c :: rest =>
      if c.tin = "" then
        .error ("Client " ++ toString (i + 1) ++ " TIN is required")
      else if c.name = "" then
        .error ("Client " ++ toString (i + 1) ++ " name is required")
      else if c.address = "" then
        .error ("Client " ++ toString (i + 1) ++ " address is required")
      else validateClients (i + 1) rest

/-- `validateRequiredFields` (multi-party.ts 362-403). -/
def validateRequiredFields (dx : MultiPartyDraftState) :
    Except String Unit :=
  if (dx.document.map (fun d => d.no)).getD "" = "" then
    .error "Document number is required"
  else if (dx.document.map (fun d => d.date)).getD "" = "" then
    .error "Document date is required"
  else if (dx.owner.map (fun o => o.tin)).getD "" = "" then
    .error "Owner TIN is required"
  else if (dx.owner.map (fun o => o.name)).getD "" = "" then
    .error "Owner name is required"
  else if (dx.owner.map (fun o => o.address)).getD "" = "" then
    .error "Owner address is required"
  else if dx.clients.getD [] = [] then
    .error "At least one client is required"
  else
    match validateClients 0 (dx.clients.getD []) with
    | .error e => .error e
    | .ok _ =>
        if dx.pdfBase64.getD "" = "" then
          .error "PDF base64 data is required"
        else .ok ()

/-- The generated `data` object (multi-party.ts 317-351): `Document` (with
`DocumentName` appended when truthy), `Owner`, `Clients`, and `ContractDoc`
appended when a contract was set. -/
def genData (doc : MPDocumentDraft) (owner : MPOrgDraft)
    (clients : List MPClientDraft) (contract : Option ContractDraft) :
    List (String × Json) :=
  [("Document", Json.obj
      ([("DocumentNo", .str doc.no), ("DocumentDate", .str doc.date)] ++
       (match doc.name with
        | some n => if n = "" then [] else [("DocumentName", Json.str n)]
        | none => []))),
   ("Owner", Json.obj
      [("Tin", .str owner.tin), ("Name", .str owner.name),
       ("BranchCode", strOrEmpty owner.branchCode),
       ("BranchName", strOrEmpty owner.branchName),
       ("Address", .str owner.address)]),
   ("Clients", Json.arr (clients.map (fun c => Json.obj
      [("Tin", .str c.tin), ("Name", .str c.name),
       ("Address", .str c.address)])))] ++
  (match contract with
   | some c => [("ContractDoc", Json.obj [("ContractNo", Json.str c.no),
       ("ContractDate", Json.str c.date)])]
   | none => [])

/-- `mergeRawData` (multi-party.ts 412-425): with raw data present, spread
the generated payload, then the raw data, then overwrite `data` with the
two-level merge of the generated `data` and the raw `data`. -/
def mergeRawData (rawPayload : List (String × Json))
    (genFields dataFields : List (String × Json)) : List (String × Json) :=
  if rawPayload.isEmpty then genFields
  else
    objSet (objAssign genFields rawPayload) "data"
      (Json.obj (objAssign dataFields (spreadOpt (jLookup rawPayload "data"))))

/-- `MultiPartyDocumentBuilder.build` (multi-party.ts 313-354). -/
def build (s : MultiPartyState) : Except String Json :=
  match validateRequiredFields s.dxPayload with
  | .error e => .error e
  | .ok _ =>
      match s.dxPayload.document, s.dxPayload.owner with
      | some doc, some owner =>
          let dataFields := genData doc owner (s.dxPayload.clients.getD [])
            s.dxPayload.contract
          let genFields :=
            [("data", Json.obj dataFields),
             ("document", Json.str ("data:application/pdf;base64," ++
               s.dxPayload.pdfBase64.getD ""))]
          .ok (Json.obj (mergeRawData s.payload genFields dataFields))
      | _, _ => .error "unreachable"

end MultiPartyDocumentBuilder

/-- `Partial<ArbitraryDocumentDraft>`. -/
structure ArbitraryDraftState where
  document : Option MPDocumentDraft := none
  subtype : Option ℚ := none
  contract : Option ContractDraft := none
  seller : Option MPOrgDraft := none
  buyer : Option MPOrgDraft := none
  pdfBase64 : Option String := none
deriving DecidableEq

structure ArbitraryState where
  dxPayload : ArbitraryDraftState := {}
  payload : List (String × Json) := []

namespace ArbitraryDocumentBuilder

/-- `raw` delegates to the base `Object.assign`. -/
def raw (s : ArbitraryState) (data : List (String × Json)) : ArbitraryState :=
  { s with payload := objAssign s.payload data }

/-- `validateRequiredFields` (arbitrary.ts 355-381): the subtype check tests
`=== undefined` explicitly, so `0` passes. -/
def validateRequiredFields (dx : ArbitraryDraftState) : Except String Unit :=
  if (dx.document.map (fun d => d.no)).getD "" = "" then
    .error "Document number is required"
  else if (dx.document.map (fun d => d.date)).getD "" = "" then
    .error "Document date is required"
  else if dx.subtype = none then
    .error "Subtype is required"
  else if (dx.seller.map (fun o => o.tin)).getD "" = "" then
    .error "Seller TIN is required"
  else if (dx.buyer.map (fun o => o.tin)).getD "" = "" then
    .error "Buyer TIN is required"
  else if dx.pdfBase64.getD "" = "" then
    .error "PDF base64 data is required"
  else .ok ()

/-- The generated `data` object (arbitrary.ts 307-344), with `DocumentName`
appended inside `Document` when truthy and `ContractDoc` appended at the end
when a contract was set. -/
def genData (doc : MPDocumentDraft) (subtype : ℚ)
    (seller buyer : MPOrgDraft) (contract : Option ContractDraft) :
    List (String × Json) :=
  [("Document", Json.obj
      ([("DocumentNo", .str doc.no), ("DocumentDate", .str doc.date)] ++
       (match doc.name with
        | some n => if n = "" then [] else [("DocumentName", Json.str n)]
        | none => []))),
   ("Subtype", .num subtype),
   ("SellerTin", .str seller.tin),
   ("Seller", Json.obj
      [("Name", .str seller.name), ("BranchCode", strOrEmpty seller.branchCode),
       ("BranchName", strOrEmpty seller.branchName),
       ("Address", .str seller.address)]),
   ("BuyerTin", .str buyer.tin),
   ("Buyer", Json.obj
      [("Name", .str buyer.name), ("BranchCode", strOrEmpty buyer.branchCode),
       ("BranchName", strOrEmpty buyer.branchName),
       ("Address", .str buyer.address)])] ++
  (match contract with
   | some c => [("ContractDoc", Json.obj [("ContractNo", Json.str c.no),
       ("ContractDate", Json.str c.date)])]
   | none => [])

/-- `mergeRawData` (arbitrary.ts 388-401): identical two-level merge. -/
def mergeRawData (rawPayload : List (String × Json))
    (genFields dataFields : List (String × Json)) : List (String × Json) :=
  if rawPayload.isEmpty then genFields
  else
    objSet (objAssign genFields rawPayload) "data"
      (Json.obj (objAssign dataFields (spreadOpt (jLookup rawPayload "data"))))

/-- `ArbitraryDocumentBuilder.build` (arbitrary.ts 303-347). -/
def build (s : ArbitraryState) : Except String Json :=
  match validateRequiredFields s.dxPayload with
  | .error e => .error e
  | .ok _ =>
      match s.dxPayload.document, s.dxPayload.seller, s.dxPayload.buyer with
      | some doc, some seller, some buyer =>
          let dataFields := genData doc (s.dxPayload.subtype.getD 0) seller
            buyer s.dxPayload.contract
          let genFields :=
            [("data", Json.obj dataFields),
             ("document", Json.str ("data:application/pdf;base64," ++
               s.dxPayload.pdfBase64.getD ""))]
          .ok (Json.obj (mergeRawData s.payload genFields dataFields))
      | _, _, _ => .error "unreachable"

end ArbitraryDocumentBuilder

/-! ## Claim C6: raw-override merge behaviour of the non-TTN builders -/

/-- Founders-protocol state with a complete draft and a raw nested override
`raw(\x7bcompany: \x7boked: 62020\x7d\x7d)`. -/
def c6FP : FoundersProtocolState :=
  { draft :=
      { document := some ⟨"Protokol 1", "001", "Tashkent", "2025-02-07"⟩
        company := some ⟨"123456789", "DT", "12345678901234", "Ivanov", none,
          none, none, "Addr", none, none⟩
        participants := [⟨"987654321", "P", none, none, .num 51, none,
          some true, none⟩]
        parts := [⟨"Q1", "B1"⟩] }
    payload := [("company", Json.obj [("oked", Json.num 62020)])] }

/-- Empowerment state with `raw(\x7bSeller: \x7bDirector: X\x7d\x7d)` used to
instantiate the C6 theorem. -/
def c6wEmp : EmpowermentState :=
  { draft :=
      { empowerment := some ⟨"EMP-1", "2025-02-07", "2025-02-14"⟩
        agent := some ⟨"AGENT A", "50106026830029", none, none⟩
        seller := some ⟨"302936161", "VENKON", "2020800", "00974", "Addr S",
          none, none, none, none⟩
        buyer := some ⟨"310529901", "DIDOX", "2020801", "00401", "Addr B",
          none, none, none, none⟩
        products := [⟨"Laptop", "08471001001000000", none, "1", 10⟩] }
    payload := [("Seller", Json.obj [("Director", Json.str "X")])] }

/-! ## Claim C8: empowerment ProductList constants -/

/-- Empowerment state whose raw data overrides the `ProductList` section. -/
def c8Emp : EmpowermentState :=
  { draft := c6wEmp.draft
    payload := [("ProductList", Json.obj [("HasVat", Json.bool true)])] }

/-- Empowerment state with raw data that leaves `ProductList` alone. -/
def c8wEmp : EmpowermentState :=
  { draft := c6wEmp.draft
    payload := [("CustomField", Json.str "v")] }

/-! ## Claim C9: build() is idempotent -/

namespace BaseDocumentBuilder

/-- `BaseDocumentBuilder.build` (BaseDocumentBuilder.ts 118-121): a shallow
copy of the accumulated payload; the builder state is untouched.  The stub
builders (hybrid invoice, pharmacy invoice, contract, verification act,
acceptance transfer) inherit this implementation unchanged. -/
def build (payload : List (String × Json)) : Json × List (String × Json) :=
  (Json.obj payload, payload)

end BaseDocumentBuilder

/-- State-passing form of `ActBuilder.build`: the source build reads but
never writes the builder state. -/
def ActBuilder.buildS (s : ActState) :
    Except String (ApiActPayload × ActState) :=
  (ActBuilder.build s).map (fun p => (p, s))

/-- State-passing form of `InvoiceBuilder.build`. -/
def InvoiceBuilder.buildS (s : InvoiceState) :
    Except String (ApiInvoicePayload × InvoiceState) :=
  (InvoiceBuilder.build s).map (fun p => (p, s))

/-- State-passing form of `TtnBuilder.build`. -/
def TtnBuilder.buildS (s : TtnState) : Except String (Json × TtnState) :=
  (TtnBuilder.build s).map (fun p => (p, s))

/-- State-passing form of `EmpowermentBuilder.build`. -/
def EmpowermentBuilder.buildS (s : EmpowermentState) :
    Except String (Json × EmpowermentState) :=
  (EmpowermentBuilder.build s).map (fun p => (p, s))

/-- State-passing form of `LetterNKBuilder.build`. -/
def LetterNKBuilder.buildS (s : LetterNKState) :
    Except String (Json × LetterNKState) :=
  (LetterNKBuilder.build s).map (fun p => (p, s))

/-- State-passing form of `MultiPartyDocumentBuilder.build`. -/
def MultiPartyDocumentBuilder.buildS (s : MultiPartyState) :
    Except String (Json × MultiPartyState) :=
  (MultiPartyDocumentBuilder.build s).map (fun p => (p, s))

/-- State-passing form of `ArbitraryDocumentBuilder.build`. -/
def ArbitraryDocumentBuilder.buildS (s : ArbitraryState) :
    Except String (Json × ArbitraryState) :=
  (ArbitraryDocumentBuilder.build s).map (fun p => (p, s))

/-! ## Claim C10: registry factories and initial-payload seeding

One factory per document type of the registry (builders/index.ts 106-187).
The `ttn`, `multiParty`, `arbitrary`, `contract`, `invoicePharm`,
`verificationAct`, `hybridInvoice` and `acceptanceTransfer` factories pass
their optional initial payload to the base constructor, which seeds
`this.payload` with a shallow copy of it (the identity in this pure model).
The `act`, `invoice`, `empowerment`, `letterNK` and `foundersProtocol`
factories take no initial-payload parameter (a supplied argument is ignored
at runtime) and always construct an empty builder. -/

/-- `export const act = () => new ActBuilder()` (act.ts 419). -/
def act (_initial : Option ActState) : ActState := {}

/-- `export const invoice = () => new InvoiceBuilder()` (invoice.ts 438). -/
def invoice (_initial : Option InvoiceState) : InvoiceState := {}

/-- `export const invoicePharm = (initial?) => new InvoicePharmBuilder(initial)`
— a stub builder holding only the base payload. -/
def invoicePharm (initial : Option (List (String × Json))) :
    List (String × Json) :=
  initial.getD []

/-- `export const hybridInvoice = (initial?) => new HybridInvoiceBuilder(initial)`. -/
def hybridInvoice (initial : Option (List (String × Json))) :
    List (String × Json) :=
  initial.getD []

/-- `export const ttn = (initial?) => new TtnBuilder(initial)` (ttn.ts 1051). -/
def ttn (initial : Option (List (String × Json))) : TtnState :=
  { dx := {}, payload := initial.getD [] }

/-- `export const contract = (initial?) => new ContractBuilder(initial)`. -/
def contract (initial : Option (List (String × Json))) :
    List (String × Json) :=
  initial.getD []

/-- `export function empowerment()` (empowerment.ts 705-707): no
initial-payload parameter. -/
def empowerment (_initial : Option (List (String × Json))) :
    EmpowermentState := {}

/-- `export const arbitrary = (initial?) => new ArbitraryDocumentBuilder(initial)`. -/
def arbitrary (initial : Option (List (String × Json))) : ArbitraryState :=
  { dxPayload := {}, payload := initial.getD [] }

/-- `export const verificationAct = (initial?) => new VerificationActBuilder(initial)`. -/
def verificationAct (initial : Option (List (String × Json))) :
    List (String × Json) :=
  initial.getD []

/-- `export const acceptanceTransfer = (initial?) => new AcceptanceTransferBuilder(initial)`. -/
def acceptanceTransfer (initial : Option (List (String × Json))) :
    List (String × Json) :=
  initial.getD []

/-- `export function foundersProtocol()` (founders-protocol.ts 534-536): no
initial-payload parameter. -/
def foundersProtocol (_initial : Option (List (String × Json))) :
    FoundersProtocolState := {}

/-- `export function letterNK()` (letter-nk.ts 566-568): no initial-payload
parameter. -/
def letterNK (_initial : Option (List (String × Json))) : LetterNKState := {}

/-- `export const multiParty = (initial?) => new MultiPartyDocumentBuilder(initial)`. -/
def multiParty (initial : Option (List (String × Json))) : MultiPartyState :=
  { dxPayload := {}, payload := initial.getD [] }

/-- A complete, buildable act draft supplied as an initial payload. -/
def c10Init : ActState :=
  { act := some ⟨"ACT-10", "2025-04-01", none⟩
    seller := some ⟨"123456789", "S", none, none⟩
    buyer := some ⟨"987654321", "B", none, none⟩
    products := some [⟨"W", "C", "N", "P", "U", 1, 5, none, none, none, none⟩]
    flags := none }

/-! ## Theorems -/

/-- Sanity checks for the numeric model: rounding and rendering agree with
the JavaScript behaviour on representative values. -/
theorem numeric_model_sanity :
    jsRound (5/2) = 3 ∧ round2 (1/200) = 1/100 ∧
    toFixed2 (1200000 : ℚ) = "1200000.00" ∧ toFixed2 (112/10) = "11.20" ∧
    numToString (11200 : ℚ) = "11200" ∧ numToString (-25/10) = "-2.5" ∧
    numToString (1/200) = "0.005" := by
  with_unfolding_all decide

/-- A rational whose hundredfold is an integer is unchanged by two-decimal
rounding. -/
theorem round2_eq_self {q : ℚ} (h : (q * 100).den = 1) : round2 q = q := by
  obtain ⟨n, hn⟩ : ∃ n : ℤ, ((n : ℚ)) = q * 100 :=
    ⟨(q * 100).num, Rat.coe_int_num_of_den_eq_one h⟩
  unfold round2
  rw [← hn, Int.floor_int_add]
  have h2 : ⌊(1/2 : ℚ)⌋ = 0 := by
    rw [Int.floor_eq_iff]
    norm_num
  rw [h2, add_zero]
  have hq : q = (n : ℚ) / 100 := by
    field_simp
    linarith
  rw [hq]

theorem jLookup_map_replace (o : List (String × Json)) (k : String) (v : Json)
    (k' : String) :
    jLookup (o.map (fun kv => if kv.1 = k then (k, v) else kv)) k' =
      if k' = k then (if (jLookup o k).isSome then some v else none)
      else jLookup o k' := by
  induction o with
  | nil =>
      by_cases h : k' = k
      · simp [jLookup, h]
      · simp [jLookup, h]
  | cons kv rest ih =>
      simp only [List.map_cons, jLookup]
      rw [ih]
      by_cases hk : k' = k
      · subst hk
        rw [if_pos rfl, if_pos rfl]
        by_cases hsome : (jLookup rest k').isSome
        · obtain ⟨w, hw⟩ := Option.isSome_iff_exists.mp hsome
          simp [hw]
        · simp only [Option.not_isSome_iff_eq_none.mp hsome]
          by_cases hkv : kv.1 = k'
          · simp [hkv]
          · simp [hkv]
      · rw [if_neg hk, if_neg hk]
        cases hr : jLookup rest k' with
        | some w => rfl
        | none =>
            show (if (if kv.1 = k then (k, v) else kv).1 = k'
                    then some (if kv.1 = k then (k, v) else kv).2 else none) =
                 (if kv.1 = k' then some kv.2 else none)
            by_cases hkv : kv.1 = k
            · rw [if_pos hkv]
              have hne : ¬((k, v).1 = k') := fun hh => hk hh.symm
              have hne2 : ¬(kv.1 = k') := fun hh => hk ((hkv.symm.trans hh).symm)
              rw [if_neg hne, if_neg hne2]
            · rw [if_neg hkv]

theorem jLookup_append_single (o : List (String × Json)) (k : String) (v : Json)
    (k' : String) :
    jLookup (o ++ [(k, v)]) k' = if k' = k then some v else jLookup o k' := by
  induction o with
  | nil =>
      by_cases h : k' = k
      · simp [jLookup, h]
      · have hne : ¬(k = k') := fun hh => h hh.symm
        simp [jLookup, h, hne]
  | cons kv rest ih =>
      simp only [List.cons_append, jLookup, List.append_eq] at *
      rw [ih]
      by_cases h : k' = k
      · simp [h]
      · rw [if_neg h, if_neg h]

theorem jLookup_objSet (o : List (String × Json)) (k : String) (v : Json)
    (k' : String) :
    jLookup (objSet o k v) k' = if k' = k then some v else jLookup o k' := by
  unfold objSet jHasKey
  by_cases hmem : (jLookup o k).isSome
  · simp only [hmem, if_true]
    rw [jLookup_map_replace]
    by_cases hk : k' = k <;> simp [hk, hmem]
  · simp only [hmem, Bool.false_eq_true, if_false]
    exact jLookup_append_single o k v k'

theorem jLookup_objAssign (o src : List (String × Json)) (k : String) :
    jLookup (objAssign o src) k =
      match jLookup src k with
      | some v => some v
      | none => jLookup o k := by
  induction src generalizing o with
  | nil => simp [objAssign, jLookup]
  | cons kv rest ih =>
      show jLookup (objAssign (objSet o kv.1 kv.2) rest) k = _
      rw [ih]
      simp only [jLookup]
      cases h : jLookup rest k with
      | some v => simp
      | none =>
          simp only []
          rw [jLookup_objSet]
          by_cases hk : k = kv.1
          · simp [hk]
          · simp [hk, Ne.symm hk]

theorem getElem?_mapWithIndex (f : ℕ → α → β) (n : ℕ) (l : List α) (i : ℕ) :
    (mapWithIndex f n l)[i]? = (l[i]?).map (f (n + i)) := by
  induction l generalizing n i with
  | nil => simp [mapWithIndex]
  | cons a rest ih =>
      cases i with
      | zero => simp [mapWithIndex]
      | succ j =>
          simp only [mapWithIndex, List.getElem?_cons_succ, ih]
          have h : n + 1 + j = n + (j + 1) := by omega
          rw [h]

/-- C1, counterexample: for the valid invoice draft `c1Invoice` (VAT enabled,
per-line rate `0.5`), the built line's VAT amount is the unrounded
`1*1*0.5/100 = 0.005`, whereas the claim's `round2(count*price*vatRate/100)`
is `0.01`; the code never applies `round2` to the invoice's VAT amount. -/
theorem act_invoice_vat_counterexample :
    (exOk (InvoiceBuilder.build c1Invoice)).map
        (fun p => p.ProductList.Products.map (fun q => q.VatSum)) =
      some [1/200] ∧
    round2 ((1 : ℚ) * 1 * (1/2) / 100) = 1/100 ∧
    ((1 : ℚ)/200) ≠ 1/100 := by
  refine ⟨?_, ?_, ?_⟩
  · with_unfolding_all decide
  · with_unfolding_all decide
  · with_unfolding_all decide

/-- C1 (amended): for every valid act or invoice draft, each built product
line's VAT amount is exactly `count*price*vatRate/100` when the document-level
VAT flag is set and the line's rate is positive — the act builder additionally
serializes it with two-decimal rounding — and exactly zero otherwise; the line
total with VAT is the pre-VAT total plus the VAT amount; with VAT disabled,
`WithoutVat` is true for every line lacking a per-line override.  The VAT
amount itself equals `round2(count*price*vatRate/100)` exactly when that value
has at most two decimal digits. -/
theorem act_invoice_vat_lines :
    (∀ (s : ActState) (i : ℕ) (dp : ActProductDraft),
        s.act ≠ none → s.seller ≠ none → s.buyer ≠ none →
        (s.products.getD [])[i]? = some dp → actVatLineOk s i dp) ∧
    (∀ (s : InvoiceState) (i : ℕ) (dp : InvoiceProductDraft),
        s.factura ≠ none → s.seller ≠ none → s.buyer ≠ none →
        (s.products.getD [])[i]? = some dp → invoiceVatLineOk s i dp) ∧
    (∀ q : ℚ, (q * 100).den = 1 → round2 q = q) := by
  refine ⟨?_, ?_, fun q h => round2_eq_self h⟩
  · intro s i dp h1 h2 h3 hget
    obtain ⟨a, ha⟩ := Option.ne_none_iff_exists'.mp h1
    obtain ⟨sel, hsel⟩ := Option.ne_none_iff_exists'.mp h2
    obtain ⟨b, hb⟩ := Option.ne_none_iff_exists'.mp h3
    have hne : ¬(s.products.getD [] = []) := by
      intro hnil
      rw [hnil] at hget
      simp at hget
    unfold actVatLineOk actHasVat
    simp only [ActBuilder.build, ha, hsel, hb, if_neg hne]
    refine ⟨_, rfl, ?_⟩
    rw [getElem?_mapWithIndex, hget]
    refine ⟨_, rfl, ?_⟩
    simp only [ActBuilder.buildProduct]
    by_cases hc :
        ((s.flags.getD { hasVat := none, hasExcise := none }).hasVat).getD false
          = true ∧ dp.vatRate.getD 0 > 0
    · rw [if_pos hc]
      refine ⟨fun _ => ⟨by trivial, by trivial⟩, fun hn => absurd hc hn,
        fun hfalse _ => ?_⟩
      have : (false : Bool) = true := hfalse ▸ hc.1
      exact absurd this (by decide)
    · rw [if_neg hc]
      refine ⟨fun hyes => absurd hyes hc,
        fun _ => ⟨by trivial, by first | trivial | rw [add_zero]⟩,
        fun hfalse hov => ?_⟩
      rw [hov, Option.getD_none, hfalse]
      rfl
  · intro s i dp h1 h2 h3 hget
    obtain ⟨a, ha⟩ := Option.ne_none_iff_exists'.mp h1
    obtain ⟨sel, hsel⟩ := Option.ne_none_iff_exists'.mp h2
    obtain ⟨b, hb⟩ := Option.ne_none_iff_exists'.mp h3
    have hne : ¬(s.products.getD [] = []) := by
      intro hnil
      rw [hnil] at hget
      simp at hget
    unfold invoiceVatLineOk invoiceHasVat
    simp only [InvoiceBuilder.build, ha, hsel, hb, if_neg hne]
    refine ⟨_, rfl, ?_⟩
    rw [getElem?_mapWithIndex, hget]
    refine ⟨_, rfl, ?_⟩
    simp only [InvoiceBuilder.buildProduct]
    by_cases hc :
        ((s.flags.getD
            { hasVat := none, hasExcise := none, hasLgota := none,
              hasCommittent := none }).hasVat).getD false
          = true ∧ dp.vatRate.getD 0 > 0
    · rw [if_pos hc]
      exact ⟨fun _ => by trivial, fun hn => absurd hc hn, by trivial,
        by trivial, fun hfalse => by
        have : (false : Bool) = true := hfalse ▸ hc.1
        exact absurd this (by decide)⟩
    · rw [if_neg hc]
      refine ⟨fun hyes => absurd hyes hc, fun _ => by trivial, by trivial,
        by trivial, fun hfalse => ?_⟩
      rw [hfalse]
      rfl

/-- C2, counterexample: on the act draft `c2Act` the built line has
`Summa = "11200"` — plain `toString` output — not the two-decimal rounded
decimal string `"11200.00"` the claim asserts for every monetary field. -/
theorem act_serialization_counterexample :
    (exOk (ActBuilder.build c2Act)).map
        (fun p => p.ProductList.Products.map (fun q => q.Summa)) =
      some ["11200"] ∧
    toFixed2 (11200 : ℚ) = "11200.00" ∧
    ("11200" : String) ≠ "11200.00" := by
  refine ⟨?_, ?_, ?_⟩
  · with_unfolding_all decide
  · with_unfolding_all decide
  · with_unfolding_all decide

/-- C2 (amended): for every valid act draft, `build()` serializes the
monetary line fields `TotalSumWithoutVat`, `VatSum` and `TotalSum` as
two-decimal rounded decimal strings, and the `Count` and `Summa` fields via
plain `toString` (an integer string exactly when the value is an integer);
for every valid invoice draft, `build()` keeps `Count`, `Summa`,
`DeliverySum`, `VatSum` and `DeliverySumWithVat` as native numbers. -/
theorem act_invoice_serialization :
    (∀ (s : ActState) (i : ℕ) (dp : ActProductDraft),
        s.act ≠ none → s.seller ≠ none → s.buyer ≠ none →
        (s.products.getD [])[i]? = some dp → actSerializedLineOk s i dp) ∧
    (∀ (s : InvoiceState) (i : ℕ) (dp : InvoiceProductDraft),
        s.factura ≠ none → s.seller ≠ none → s.buyer ≠ none →
        (s.products.getD [])[i]? = some dp → invoiceNumericLineOk s i dp) := by
  constructor
  · intro s i dp h1 h2 h3 hget
    obtain ⟨a, ha⟩ := Option.ne_none_iff_exists'.mp h1
    obtain ⟨sel, hsel⟩ := Option.ne_none_iff_exists'.mp h2
    obtain ⟨b, hb⟩ := Option.ne_none_iff_exists'.mp h3
    have hne : ¬(s.products.getD [] = []) := by
      intro hnil
      rw [hnil] at hget
      simp at hget
    unfold actSerializedLineOk
    simp only [ActBuilder.build, ha, hsel, hb, if_neg hne]
    refine ⟨_, rfl, ?_⟩
    rw [getElem?_mapWithIndex, hget]
    refine ⟨_, rfl, ?_⟩
    simp only [ActBuilder.buildProduct]
    exact ⟨_, by trivial, by trivial, by trivial, by trivial, by trivial⟩
  · intro s i dp h1 h2 h3 hget
    obtain ⟨a, ha⟩ := Option.ne_none_iff_exists'.mp h1
    obtain ⟨sel, hsel⟩ := Option.ne_none_iff_exists'.mp h2
    obtain ⟨b, hb⟩ := Option.ne_none_iff_exists'.mp h3
    have hne : ¬(s.products.getD [] = []) := by
      intro hnil
      rw [hnil] at hget
      simp at hget
    unfold invoiceNumericLineOk
    simp only [InvoiceBuilder.build, ha, hsel, hb, if_neg hne]
    refine ⟨_, rfl, ?_⟩
    rw [getElem?_mapWithIndex, hget]
    refine ⟨_, rfl, ?_⟩
    simp only [InvoiceBuilder.buildProduct]
    exact ⟨by trivial, by trivial, by trivial, by trivial⟩

/-- Witness for C2: the native-number property holds on the concrete invoice
draft `c2wInvoice` at line 0. -/
theorem act_invoice_serialization_witness :
    invoiceNumericLineOk c2wInvoice 0
      ⟨"G", "C9", none, "PK", "PCS", 3, 25, some 15, 1⟩ :=
  act_invoice_serialization.2 c2wInvoice 0 _
    (by with_unfolding_all decide) (by with_unfolding_all decide)
    (by with_unfolding_all decide) (by with_unfolding_all decide)

/-- Witness for C1: the amended per-line VAT property holds on the concrete
act draft `c1wAct` at line 0. -/
theorem act_invoice_vat_lines_witness :
    actVatLineOk c1wAct 0
      ⟨"Srv", "CC", "CN", "PC", "PN", 10, 1000, some 12, none, none, none⟩ :=
  act_invoice_vat_lines.1 c1wAct 0 _
    (by with_unfolding_all decide) (by with_unfolding_all decide)
    (by with_unfolding_all decide) (by with_unfolding_all decide)

/-- C3: for every valid transport-waybill draft, `build()` derives each
line's `Amount` as `count*price` and its `DeliverySum` as
`round(amount/100*pricePerKm)` (nearest integer, half-up), and serializes
`TotalDeliveryCost = distanceKm*pricePerKm` and `TotalDistance` as fixed
two-decimal strings; concretely `distanceKm = 120`, `pricePerKm = 10000`
yield `TotalDeliveryCost = "1200000.00"`. -/
theorem ttn_delivery_costs :
    (∀ s : TtnState, ttnValid s.dx → ttnDeliveryOk s) ∧
    toFixed2 ((120 : ℚ) * 10000) = "1200000.00" := by
  constructor
  · intro s hv
    obtain ⟨h1, h2, h3, h4, h5, h6, h7, h8⟩ := hv
    obtain ⟨w, hw⟩ := Option.ne_none_iff_exists'.mp h1
    obtain ⟨cons, hcons⟩ := Option.ne_none_iff_exists'.mp h2
    obtain ⟨conse, hconse⟩ := Option.ne_none_iff_exists'.mp h3
    obtain ⟨car, hcar⟩ := Option.ne_none_iff_exists'.mp h4
    obtain ⟨tr, htr⟩ := Option.ne_none_iff_exists'.mp h5
    obtain ⟨tot, htot⟩ := Option.ne_none_iff_exists'.mp h7
    obtain ⟨rp, hrp⟩ := Option.ne_none_iff_exists'.mp h8
    unfold ttnDeliveryOk
    simp only [TtnBuilder.buildDx, hw, hcons, hconse, hcar, htr, if_neg h6,
      htot, hrp]
    refine ⟨_, rfl, ?_, ?_⟩
    · intro hpay
      simp only [TtnBuilder.build, TtnBuilder.buildDx, hw, hcons, hconse,
        hcar, htr, if_neg h6, htot, hrp, Except.map, hpay]
      rfl
    · intro t ht
      obtain rfl : tot = t := by injection ht
      refine ⟨by trivial, by trivial, ?_⟩
      intro j g hj
      rw [getElem?_mapWithIndex, hj]
      refine ⟨_, rfl, ?_⟩
      intro i dp hi
      simp only [TtnBuilder.buildGroup]
      rw [getElem?_mapWithIndex, hi]
      exact ⟨_, rfl, by trivial, by trivial⟩
  · with_unfolding_all decide

/-- Witness for C3 at the concrete state `c3wTtn`. -/
theorem ttn_delivery_costs_witness : ttnDeliveryOk c3wTtn :=
  ttn_delivery_costs.1 c3wTtn (by with_unfolding_all decide)

/-- C4: every builder with repeated items assigns `OrdNo` as the item's
1-based position in insertion order — transport-waybill groups and their
products, act product lines, and invoice product lines. -/
theorem ordNo_insertion_order :
    (∀ s : TtnState, ttnValid s.dx → ttnOrdinalsOk s) ∧
    (∀ (s : ActState) (i : ℕ) (dp : ActProductDraft),
        s.act ≠ none → s.seller ≠ none → s.buyer ≠ none →
        (s.products.getD [])[i]? = some dp →
        ∃ p, ActBuilder.build s = .ok p ∧
        ∃ q, p.ProductList.Products[i]? = some q ∧ q.OrdNo = i + 1) ∧
    (∀ (s : InvoiceState) (i : ℕ) (dp : InvoiceProductDraft),
        s.factura ≠ none → s.seller ≠ none → s.buyer ≠ none →
        (s.products.getD [])[i]? = some dp →
        ∃ p, InvoiceBuilder.build s = .ok p ∧
        ∃ q, p.ProductList.Products[i]? = some q ∧ q.OrdNo = i + 1) := by
  refine ⟨?_, ?_, ?_⟩
  · intro s hv
    obtain ⟨h1, h2, h3, h4, h5, h6, h7, h8⟩ := hv
    obtain ⟨w, hw⟩ := Option.ne_none_iff_exists'.mp h1
    obtain ⟨cons, hcons⟩ := Option.ne_none_iff_exists'.mp h2
    obtain ⟨conse, hconse⟩ := Option.ne_none_iff_exists'.mp h3
    obtain ⟨car, hcar⟩ := Option.ne_none_iff_exists'.mp h4
    obtain ⟨tr, htr⟩ := Option.ne_none_iff_exists'.mp h5
    obtain ⟨tot, htot⟩ := Option.ne_none_iff_exists'.mp h7
    obtain ⟨rp, hrp⟩ := Option.ne_none_iff_exists'.mp h8
    unfold ttnOrdinalsOk
    simp only [TtnBuilder.buildDx, hw, hcons, hconse, hcar, htr, if_neg h6,
      htot, hrp]
    refine ⟨_, rfl, ?_⟩
    intro j g hj
    rw [getElem?_mapWithIndex, hj]
    refine ⟨_, rfl, by simp [TtnBuilder.buildGroup], ?_⟩
    intro i dp hi
    simp only [TtnBuilder.buildGroup]
    rw [getElem?_mapWithIndex, hi]
    exact ⟨_, rfl, by simp [TtnBuilder.buildProduct]⟩
  · intro s i dp h1 h2 h3 hget
    obtain ⟨a, ha⟩ := Option.ne_none_iff_exists'.mp h1
    obtain ⟨sel, hsel⟩ := Option.ne_none_iff_exists'.mp h2
    obtain ⟨b, hb⟩ := Option.ne_none_iff_exists'.mp h3
    have hne : ¬(s.products.getD [] = []) := by
      intro hnil
      rw [hnil] at hget
      simp at hget
    simp only [ActBuilder.build, ha, hsel, hb, if_neg hne]
    refine ⟨_, rfl, ?_⟩
    rw [getElem?_mapWithIndex, hget]
    exact ⟨_, rfl, by simp [ActBuilder.buildProduct]⟩
  · intro s i dp h1 h2 h3 hget
    obtain ⟨a, ha⟩ := Option.ne_none_iff_exists'.mp h1
    obtain ⟨sel, hsel⟩ := Option.ne_none_iff_exists'.mp h2
    obtain ⟨b, hb⟩ := Option.ne_none_iff_exists'.mp h3
    have hne : ¬(s.products.getD [] = []) := by
      intro hnil
      rw [hnil] at hget
      simp at hget
    simp only [InvoiceBuilder.build, ha, hsel, hb, if_neg hne]
    refine ⟨_, rfl, ?_⟩
    rw [getElem?_mapWithIndex, hget]
    exact ⟨_, rfl, by simp [InvoiceBuilder.buildProduct]⟩

/-- Witness for C4 at the concrete state `c4wTtn`. -/
theorem ordNo_insertion_order_witness : ttnOrdinalsOk c4wTtn :=
  ordNo_insertion_order.1 c4wTtn (by with_unfolding_all decide)

/-- C5: `raw()` accumulates by top-level `Object.assign` (last writer wins
per key), and `build()` spreads the accumulated raw object over the
generated payload: every raw top-level key appears verbatim in the output
(nested objects replace the generated value wholesale, being carried
verbatim), and every generated top-level field not named in the raw object
is unchanged. -/
theorem ttn_raw_shallow_merge :
    (∀ s : TtnState, ttnValid s.dx →
       ∃ api out, TtnBuilder.buildDx s.dx = .ok api ∧
         TtnBuilder.build s = .ok (Json.obj out) ∧
         (∀ k v, jLookup s.payload k = some v → jLookup out k = some v) ∧
         (∀ k, jLookup s.payload k = none →
            jLookup out k = jLookup (encodeTtn api) k)) ∧
    (∀ (s : TtnState) (data : List (String × Json)) (k : String),
       jLookup (TtnBuilder.raw s data).payload k =
         match jLookup data k with
         | some v => some v
         | none => jLookup s.payload k) := by
  constructor
  · intro s hv
    obtain ⟨h1, h2, h3, h4, h5, h6, h7, h8⟩ := hv
    obtain ⟨w, hw⟩ := Option.ne_none_iff_exists'.mp h1
    obtain ⟨cons, hcons⟩ := Option.ne_none_iff_exists'.mp h2
    obtain ⟨conse, hconse⟩ := Option.ne_none_iff_exists'.mp h3
    obtain ⟨car, hcar⟩ := Option.ne_none_iff_exists'.mp h4
    obtain ⟨tr, htr⟩ := Option.ne_none_iff_exists'.mp h5
    obtain ⟨tot, htot⟩ := Option.ne_none_iff_exists'.mp h7
    obtain ⟨rp, hrp⟩ := Option.ne_none_iff_exists'.mp h8
    have hex : ∃ api, TtnBuilder.buildDx s.dx = .ok api := by
      simp only [TtnBuilder.buildDx, hw, hcons, hconse, hcar, htr,
        if_neg h6, htot, hrp]
      exact ⟨_, rfl⟩
    obtain ⟨api, hapi⟩ := hex
    refine ⟨api, objAssign (encodeTtn api) s.payload, hapi, ?_, ?_, ?_⟩
    · simp only [TtnBuilder.build, hapi, Except.map]
    · intro k v hk
      rw [jLookup_objAssign, hk]
    · intro k hk
      rw [jLookup_objAssign, hk]
  · intro s data k
    show jLookup (objAssign s.payload data) k = _
    rw [jLookup_objAssign]

/-- Witness for C5 at the concrete state `c5wTtn`. -/
theorem ttn_raw_shallow_merge_witness :
    ∃ api out, TtnBuilder.buildDx c5wTtn.dx = .ok api ∧
      TtnBuilder.build c5wTtn = .ok (Json.obj out) ∧
      (∀ k v, jLookup c5wTtn.payload k = some v → jLookup out k = some v) ∧
      (∀ k, jLookup c5wTtn.payload k = none →
        jLookup out k = jLookup (encodeTtn api) k) :=
  ttn_raw_shallow_merge.1 c5wTtn (by with_unfolding_all decide)

/-- C7, counterexample: `addProductGroup` with a configuration callback that
sets nothing throws `Loading point is required for product group` at the
setter call itself, because the nested group builder's `build()` runs
eagerly inside `addProductGroup`. -/
theorem addProductGroup_counterexample :
    TtnBuilder.addProductGroup {} (fun g => g) =
      .error "Loading point is required for product group" := rfl

/-- C7 (amended): every chained setter of the builders is a total state
update except the transport waybill's `addProductGroup`, which eagerly runs
the nested group builder's `build()` and therefore raises the group's
missing-loading-point, missing-unloading-point or empty-product-list errors
at the setter call; `addProductGroup` succeeds exactly when the configured
group has a loading point, an unloading point and at least one product, and
fails with exactly the nested builder's error otherwise.  All document-level
missing-section and empty-list errors are raised only by `build()`. -/
theorem addProductGroup_eager_validation :
    (∀ (s : TtnState) (builderFn : TtnGroupState → TtnGroupState),
        (∃ s', TtnBuilder.addProductGroup s builderFn = .ok s') ↔
          ((builderFn {}).loadingPoint ≠ none ∧
           (builderFn {}).unloadingPoint ≠ none ∧
           (builderFn {}).products.getD [] ≠ [])) ∧
    (∀ (s : TtnState) (builderFn : TtnGroupState → TtnGroupState)
        (e : String),
        TtnBuilder.addProductGroup s builderFn = .error e ↔
          TtnProductGroupBuilder.build (builderFn {}) = .error e) ∧
    (∀ g : TtnGroupState, g.loadingPoint = none →
        TtnProductGroupBuilder.build g =
          .error "Loading point is required for product group") ∧
    (∀ g : TtnGroupState, g.loadingPoint ≠ none → g.unloadingPoint = none →
        TtnProductGroupBuilder.build g =
          .error "Unloading point is required for product group") ∧
    (∀ g : TtnGroupState, g.loadingPoint ≠ none → g.unloadingPoint ≠ none →
        g.products.getD [] = [] →
        TtnProductGroupBuilder.build g =
          .error "At least one product is required for product group") := by
  have build_ok_iff : ∀ g : TtnGroupState,
      (∃ pg, TtnProductGroupBuilder.build g = .ok pg) ↔
        (g.loadingPoint ≠ none ∧ g.unloadingPoint ≠ none ∧
         g.products.getD [] ≠ []) := by
    intro g
    unfold TtnProductGroupBuilder.build
    cases hlp : g.loadingPoint with
    | none => simp
    | some lp =>
        cases hup : g.unloadingPoint with
        | none => simp
        | some up =>
            by_cases hp : g.products.getD [] = []
            · simp [hp]
            · simp [hp]
  refine ⟨?_, ?_, ?_, ?_, ?_⟩
  · intro s builderFn
    constructor
    · rintro ⟨s', hs'⟩
      apply (build_ok_iff (builderFn {})).mp
      unfold TtnBuilder.addProductGroup at hs'
      cases hb : TtnProductGroupBuilder.build (builderFn {}) with
      | error e =>
          rw [hb] at hs'
          exact absurd hs' (by simp)
      | ok pg => exact ⟨pg, rfl⟩
    · intro hcond
      obtain ⟨pg, hpg⟩ := (build_ok_iff (builderFn {})).mpr hcond
      refine ⟨{ s with dx := { s.dx with productGroups := some (s.dx.productGroups.getD [] ++ [pg]) } }, ?_⟩
      unfold TtnBuilder.addProductGroup
      rw [hpg]
  · intro s builderFn e
    constructor
    · intro hs'
      unfold TtnBuilder.addProductGroup at hs'
      cases hb : TtnProductGroupBuilder.build (builderFn {}) with
      | error e' =>
          rw [hb] at hs'
          simp at hs'
          rw [hs']
      | ok pg =>
          rw [hb] at hs'
          exact absurd hs' (by simp)
    · intro hb
      unfold TtnBuilder.addProductGroup
      rw [hb]
  · intro g hlp
    unfold TtnProductGroupBuilder.build
    rw [hlp]
  · intro g hlp hup
    obtain ⟨lp, hlp'⟩ := Option.ne_none_iff_exists'.mp hlp
    unfold TtnProductGroupBuilder.build
    rw [hlp', hup]
  · intro g hlp hup hp
    obtain ⟨lp, hlp'⟩ := Option.ne_none_iff_exists'.mp hlp
    obtain ⟨up, hup'⟩ := Option.ne_none_iff_exists'.mp hup
    unfold TtnProductGroupBuilder.build
    simp only [hlp', hup']
    rw [if_pos hp]

/-- Witness for C7: a complete callback-configured group makes
`addProductGroup` succeed, and a group lacking its unloading point makes the
nested `build()` fail with the matching message. -/
theorem addProductGroup_eager_validation_witness :
    (∃ s', TtnBuilder.addProductGroup {} (fun _ => c7FullGroup) = .ok s') ∧
    TtnProductGroupBuilder.build c7HalfGroup =
      .error "Unloading point is required for product group" :=
  ⟨(addProductGroup_eager_validation.1 {} (fun _ => c7FullGroup)).mpr
      ⟨by with_unfolding_all decide, by with_unfolding_all decide,
       by with_unfolding_all decide⟩,
   addProductGroup_eager_validation.2.2.2.1 c7HalfGroup
      (by with_unfolding_all decide) (by with_unfolding_all decide)⟩

theorem jLookup_dmFields (t : Json) (l : List (String × Json)) (k : String) :
    jLookup (dmFields t l) k = (jLookup l k).map (fun v => dmVal t k v) := by
  induction l with
  | nil => simp [dmFields, jLookup]
  | cons kv rest ih =>
      obtain ⟨k', v'⟩ := kv
      simp only [dmFields, jLookup, ih]
      cases hr : jLookup rest k with
      | some w => simp
      | none =>
          simp only [Option.map_none']
          by_cases hk : k' = k
          · subst hk
            simp [dmVal]
          · simp [hk]

theorem jGet_deepMerge_obj (t : Json) (fs : List (String × Json)) (k : String) :
    jGet (deepMerge t (Json.obj fs)) k =
      match jLookup fs k with
      | some v => some (dmVal t k v)
      | none => jLookup (Json.spreadFields t) k := by
  show jLookup (objAssign (Json.spreadFields t) (dmFields t fs)) k = _
  rw [jLookup_objAssign, jLookup_dmFields]
  cases jLookup fs k with
  | some v => rfl
  | none => rfl

/-- C6, counterexample: the founders'-protocol builder does not deep-merge
raw data.  With `raw(\x7bcompany: \x7boked: 62020\x7d\x7d)` on the complete
draft `c6FP`, `build()` shallow-assigns the generated payload over the raw
store, so the built `company.oked` is the generated default `0`, not the raw
leaf `62020` the claim requires. -/
theorem deep_merge_counterexample :
    ((exOk (FoundersProtocolBuilder.build c6FP)).bind (fun r =>
        (jGet r.1 "company").bind (fun o => (jGet o "oked").bind Json.asNum)))
      = some 0 ∧ (0 : ℚ) ≠ 62020 := by
  constructor
  · with_unfolding_all decide
  · with_unfolding_all decide

/-- C6 (amended): the empowerment and letter-to-authority builders
recursively deep-merge `raw()` data into the generated payload — a raw
nested object overrides matching leaf keys while sibling generated keys in
the same nested object keep their generated values.  The multi-party and
arbitrary builders merge key-by-key only at the top level and inside the
top-level `data` object, a raw value replacing the generated one wholesale
per key there.  The founders'-protocol builder performs no deep merge at
all: at `build()` the generated payload is shallow-assigned over the raw
store, so raw data at a generated top-level key is discarded entirely and
only raw keys distinct from the generated ones survive. -/
theorem raw_merge_per_builder :
    (∀ (s : EmpowermentState) (x : String) (sel : CompanyDraft),
        s.draft.empowerment ≠ none → s.draft.agent ≠ none →
        s.draft.seller = some sel → s.draft.buyer ≠ none →
        s.draft.products ≠ [] →
        jLookup s.payload "Seller" =
          some (Json.obj [("Director", Json.str x)]) →
        ∃ j, EmpowermentBuilder.build s = .ok j ∧
          (jGet j "Seller").bind (fun o => jGet o "Director") =
            some (.str x) ∧
          (jGet j "Seller").bind (fun o => jGet o "Name") =
            some (.str sel.name)) ∧
    (∀ (s : LetterNKState) (x : String) (snd : LetterPartyDraft),
        s.draft.letter ≠ none → s.draft.sender = some snd →
        s.draft.recipient ≠ none → s.draft.html.getD "" ≠ "" →
        jLookup s.payload "Sender" = some (Json.obj [("Name", Json.str x)]) →
        ∃ j, LetterNKBuilder.build s = .ok j ∧
          (jGet j "Sender").bind (fun o => jGet o "Name") = some (.str x) ∧
          (jGet j "Sender").bind (fun o => jGet o "Tin") =
            some (.str snd.tin)) ∧
    (∀ (s : FoundersProtocolState) (comp : ProtocolCompanyDraft),
        s.draft.document ≠ none → s.draft.company = some comp →
        s.draft.participants ≠ [] → s.draft.parts ≠ [] →
        ∃ r, FoundersProtocolBuilder.build s = .ok r ∧
          jGet r.1 "company" =
            some (FoundersProtocolBuilder.companyJson comp) ∧
          (∀ k v, jLookup s.payload k = some v →
            k ≠ "documentdoc" → k ≠ "company" → k ≠ "participants" →
            k ≠ "parts" → jGet r.1 k = some v)) ∧
    (∀ (s : MultiPartyState) (doc : MPDocumentDraft) (owner : MPOrgDraft),
        s.dxPayload.document = some doc → s.dxPayload.owner = some owner →
        MultiPartyDocumentBuilder.validateRequiredFields s.dxPayload =
          .ok () →
        s.payload ≠ [] →
        ∃ j, MultiPartyDocumentBuilder.build s = .ok j ∧
          (∀ k v, k ≠ "data" → jLookup s.payload k = some v →
            jGet j k = some v) ∧
          (∀ k v, jLookup (spreadOpt (jLookup s.payload "data")) k = some v →
            (jGet j "data").bind (fun o => jGet o k) = some v) ∧
          (∀ k, jLookup (spreadOpt (jLookup s.payload "data")) k = none →
            (jGet j "data").bind (fun o => jGet o k) =
              jLookup (MultiPartyDocumentBuilder.genData doc owner
                (s.dxPayload.clients.getD []) s.dxPayload.contract) k)) ∧
    (∀ (s : ArbitraryState) (doc : MPDocumentDraft)
        (seller buyer : MPOrgDraft),
        s.dxPayload.document = some doc → s.dxPayload.seller = some seller →
        s.dxPayload.buyer = some buyer →
        ArbitraryDocumentBuilder.validateRequiredFields s.dxPayload =
          .ok () →
        s.payload ≠ [] →
        ∃ j, ArbitraryDocumentBuilder.build s = .ok j ∧
          (∀ k v, k ≠ "data" → jLookup s.payload k = some v →
            jGet j k = some v) ∧
          (∀ k v, jLookup (spreadOpt (jLookup s.payload "data")) k = some v →
            (jGet j "data").bind (fun o => jGet o k) = some v) ∧
          (∀ k, jLookup (spreadOpt (jLookup s.payload "data")) k = none →
            (jGet j "data").bind (fun o => jGet o k) =
              jLookup (ArbitraryDocumentBuilder.genData doc
                (s.dxPayload.subtype.getD 0) seller buyer
                s.dxPayload.contract) k)) := by
  refine ⟨?_, ?_, ?_, ?_, ?_⟩
  · intro s x sel h1 h2 hsel h4 h5 hraw
    obtain ⟨emp, hemp⟩ := Option.ne_none_iff_exists'.mp h1
    obtain ⟨agent, hagent⟩ := Option.ne_none_iff_exists'.mp h2
    obtain ⟨buyer, hbuyer⟩ := Option.ne_none_iff_exists'.mp h4
    simp only [EmpowermentBuilder.build, hemp, hagent, hsel, hbuyer,
      if_neg h5]
    refine ⟨_, rfl, ?_, ?_⟩
    · rw [jGet_deepMerge_obj, hraw]
      rfl
    · rw [jGet_deepMerge_obj, hraw]
      rfl
  · intro s x snd h1 hsnd h3 h4 hraw
    obtain ⟨letter, hletter⟩ := Option.ne_none_iff_exists'.mp h1
    obtain ⟨recipient, hrecipient⟩ := Option.ne_none_iff_exists'.mp h3
    simp only [LetterNKBuilder.build, hletter, hsnd, hrecipient, if_neg h4]
    refine ⟨_, rfl, ?_, ?_⟩
    · rw [jGet_deepMerge_obj, hraw]
      rfl
    · rw [jGet_deepMerge_obj, hraw]
      rfl
  · intro s comp h1 hcomp h3 h4
    obtain ⟨doc, hdoc⟩ := Option.ne_none_iff_exists'.mp h1
    simp only [FoundersProtocolBuilder.build, hdoc, hcomp, if_neg h3,
      if_neg h4]
    refine ⟨_, rfl, ?_, ?_⟩
    · show jLookup (objAssign s.payload _) "company" = _
      rw [jLookup_objAssign]
      rfl
    · intro k v hk hk1 hk2 hk3 hk4
      show jLookup (objAssign s.payload _) k = some v
      rw [jLookup_objAssign]
      have hnone : jLookup (FoundersProtocolBuilder.genPayload doc comp
          s.draft.participants s.draft.parts) k = none := by
        simp only [FoundersProtocolBuilder.genPayload, jLookup]
        rw [if_neg (fun h => hk4 h.symm), if_neg (fun h => hk3 h.symm),
          if_neg (fun h => hk2 h.symm), if_neg (fun h => hk1 h.symm)]
      rw [hnone, hk]
  · intro s doc owner hdoc howner hval hraw
    simp only [MultiPartyDocumentBuilder.build, hval, hdoc, howner]
    refine ⟨_, rfl, ?_, ?_, ?_⟩
    · intro k v hk hkv
      show jLookup (MultiPartyDocumentBuilder.mergeRawData s.payload _ _) k
        = some v
      rw [MultiPartyDocumentBuilder.mergeRawData,
        if_neg (by simpa [List.isEmpty_iff] using hraw)]
      rw [jLookup_objSet, if_neg hk, jLookup_objAssign, hkv]
    · intro k v hkv
      show (jGet (Json.obj (MultiPartyDocumentBuilder.mergeRawData s.payload
        _ _)) "data").bind _ = some v
      rw [MultiPartyDocumentBuilder.mergeRawData,
        if_neg (by simpa [List.isEmpty_iff] using hraw)]
      show (jLookup (objSet _ "data" _) "data").bind _ = some v
      rw [jLookup_objSet, if_pos rfl]
      show jGet (Json.obj (objAssign _ _)) k = some v
      show jLookup (objAssign _ _) k = some v
      rw [jLookup_objAssign, hkv]
    · intro k hkv
      show (jGet (Json.obj (MultiPartyDocumentBuilder.mergeRawData s.payload
        _ _)) "data").bind _ = _
      rw [MultiPartyDocumentBuilder.mergeRawData,
        if_neg (by simpa [List.isEmpty_iff] using hraw)]
      show (jLookup (objSet _ "data" _) "data").bind _ = _
      rw [jLookup_objSet, if_pos rfl]
      show jLookup (objAssign _ _) k = _
      rw [jLookup_objAssign, hkv]
  · intro s doc seller buyer hdoc hseller hbuyer hval hraw
    simp only [ArbitraryDocumentBuilder.build, hval, hdoc, hseller, hbuyer]
    refine ⟨_, rfl, ?_, ?_, ?_⟩
    · intro k v hk hkv
      show jLookup (ArbitraryDocumentBuilder.mergeRawData s.payload _ _) k
        = some v
      rw [ArbitraryDocumentBuilder.mergeRawData,
        if_neg (by simpa [List.isEmpty_iff] using hraw)]
      rw [jLookup_objSet, if_neg hk, jLookup_objAssign, hkv]
    · intro k v hkv
      show (jGet (Json.obj (ArbitraryDocumentBuilder.mergeRawData s.payload
        _ _)) "data").bind _ = some v
      rw [ArbitraryDocumentBuilder.mergeRawData,
        if_neg (by simpa [List.isEmpty_iff] using hraw)]
      show (jLookup (objSet _ "data" _) "data").bind _ = some v
      rw [jLookup_objSet, if_pos rfl]
      show jLookup (objAssign _ _) k = some v
      rw [jLookup_objAssign, hkv]
    · intro k hkv
      show (jGet (Json.obj (ArbitraryDocumentBuilder.mergeRawData s.payload
        _ _)) "data").bind _ = _
      rw [ArbitraryDocumentBuilder.mergeRawData,
        if_neg (by simpa [List.isEmpty_iff] using hraw)]
      show (jLookup (objSet _ "data" _) "data").bind _ = _
      rw [jLookup_objSet, if_pos rfl]
      show jLookup (objAssign _ _) k = _
      rw [jLookup_objAssign, hkv]

/-- Witness for C6 on the concrete empowerment state `c6wEmp`. -/
theorem raw_merge_per_builder_witness :
    ∃ j, EmpowermentBuilder.build c6wEmp = .ok j ∧
      (jGet j "Seller").bind (fun o => jGet o "Director") =
        some (.str "X") ∧
      (jGet j "Seller").bind (fun o => jGet o "Name") =
        some (.str "VENKON") :=
  raw_merge_per_builder.1 c6wEmp "X"
    ⟨"302936161", "VENKON", "2020800", "00974", "Addr S",
      none, none, none, none⟩
    (by with_unfolding_all decide) (by with_unfolding_all decide) rfl
    (by with_unfolding_all decide) (by with_unfolding_all decide) rfl

/-- C8, counterexample: raw data wins in the deep merge, so
`raw(\x7bProductList: \x7bHasVat: true\x7d\x7d)` makes the built payload
carry `ProductList.HasVat = true` — the constants hold only in the absence
of a raw override of `ProductList`, not "regardless of any other inputs". -/
theorem empowerment_constants_counterexample :
    ((exOk (EmpowermentBuilder.build c8Emp)).bind (fun j =>
        (jGet j "ProductList").bind (fun o =>
          (jGet o "HasVat").bind Json.asBool))) = some true ∧
    true ≠ false := by
  constructor
  · with_unfolding_all decide
  · with_unfolding_all decide

/-- C8 (amended): for every empowerment draft that passes build-time
validation and whose `raw()` data does not name the `ProductList` key, the
built payload has `ProductList.HasExcise = false`, `ProductList.HasVat =
false`, and `ProductList.Tin` equal to the seller's TIN. -/
theorem empowerment_constants :
    ∀ (s : EmpowermentState) (sel : CompanyDraft),
      s.draft.empowerment ≠ none → s.draft.agent ≠ none →
      s.draft.seller = some sel → s.draft.buyer ≠ none →
      s.draft.products ≠ [] →
      jLookup s.payload "ProductList" = none →
      ∃ j, EmpowermentBuilder.build s = .ok j ∧
        (jGet j "ProductList").bind (fun o => jGet o "HasExcise") =
          some (.bool false) ∧
        (jGet j "ProductList").bind (fun o => jGet o "HasVat") =
          some (.bool false) ∧
        (jGet j "ProductList").bind (fun o => jGet o "Tin") =
          some (.str sel.tin) := by
  intro s sel h1 h2 hsel h4 h5 hraw
  obtain ⟨emp, hemp⟩ := Option.ne_none_iff_exists'.mp h1
  obtain ⟨agent, hagent⟩ := Option.ne_none_iff_exists'.mp h2
  obtain ⟨buyer, hbuyer⟩ := Option.ne_none_iff_exists'.mp h4
  simp only [EmpowermentBuilder.build, hemp, hagent, hsel, hbuyer, if_neg h5]
  refine ⟨_, rfl, ?_, ?_, ?_⟩
  · rw [jGet_deepMerge_obj, hraw]
    rfl
  · rw [jGet_deepMerge_obj, hraw]
    rfl
  · rw [jGet_deepMerge_obj, hraw]
    rfl

/-- Witness for C8 on the concrete state `c8wEmp`. -/
theorem empowerment_constants_witness :
    ∃ j, EmpowermentBuilder.build c8wEmp = .ok j ∧
      (jGet j "ProductList").bind (fun o => jGet o "HasExcise") =
        some (.bool false) ∧
      (jGet j "ProductList").bind (fun o => jGet o "HasVat") =
        some (.bool false) ∧
      (jGet j "ProductList").bind (fun o => jGet o "Tin") =
        some (.str "302936161") :=
  empowerment_constants c8wEmp
    ⟨"302936161", "VENKON", "2020800", "00974", "Addr S",
      none, none, none, none⟩
    (by with_unfolding_all decide) (by with_unfolding_all decide) rfl
    (by with_unfolding_all decide) (by with_unfolding_all decide) rfl

/-- C9: on every builder, calling `build()` twice with no intervening setter
or `raw()` call yields deep-equal payloads.  Every builder except the
founders' protocol leaves its state untouched, so the composed
build-after-build equals a single build outright; the founders'-protocol
build `Object.assign`s the generated payload into `this.payload`, but a
second build overwrites the same keys with the same generated values, so
every property of the two payloads agrees. -/
theorem build_idempotent :
    (∀ s : ActState,
      (ActBuilder.buildS s).bind (fun r => ActBuilder.buildS r.2) =
        ActBuilder.buildS s) ∧
    (∀ s : InvoiceState,
      (InvoiceBuilder.buildS s).bind (fun r => InvoiceBuilder.buildS r.2) =
        InvoiceBuilder.buildS s) ∧
    (∀ s : TtnState,
      (TtnBuilder.buildS s).bind (fun r => TtnBuilder.buildS r.2) =
        TtnBuilder.buildS s) ∧
    (∀ s : EmpowermentState,
      (EmpowermentBuilder.buildS s).bind
          (fun r => EmpowermentBuilder.buildS r.2) =
        EmpowermentBuilder.buildS s) ∧
    (∀ s : LetterNKState,
      (LetterNKBuilder.buildS s).bind (fun r => LetterNKBuilder.buildS r.2) =
        LetterNKBuilder.buildS s) ∧
    (∀ s : MultiPartyState,
      (MultiPartyDocumentBuilder.buildS s).bind
          (fun r => MultiPartyDocumentBuilder.buildS r.2) =
        MultiPartyDocumentBuilder.buildS s) ∧
    (∀ s : ArbitraryState,
      (ArbitraryDocumentBuilder.buildS s).bind
          (fun r => ArbitraryDocumentBuilder.buildS r.2) =
        ArbitraryDocumentBuilder.buildS s) ∧
    (∀ pl : List (String × Json),
      BaseDocumentBuilder.build pl = (Json.obj pl, pl)) ∧
    (∀ (s : FoundersProtocolState) (k : String),
      ((FoundersProtocolBuilder.build s).bind
          (fun r => FoundersProtocolBuilder.build r.2)).map
        (fun r => jGet r.1 k) =
      (FoundersProtocolBuilder.build s).map (fun r => jGet r.1 k)) := by
  have assign_twice : ∀ (o g : List (String × Json)) (k : String),
      jLookup (objAssign (objAssign o g) g) k = jLookup (objAssign o g) k := by
    intro o g k
    rw [jLookup_objAssign, jLookup_objAssign]
    cases jLookup g k with
    | some v => rfl
    | none => rfl
  refine ⟨?_, ?_, ?_, ?_, ?_, ?_, ?_, fun pl => rfl, ?_⟩
  · intro s
    unfold ActBuilder.buildS
    cases h : ActBuilder.build s with
    | error e => simp [h, Except.map, Except.bind]
    | ok p => simp [h, Except.map, Except.bind]
  · intro s
    unfold InvoiceBuilder.buildS
    cases h : InvoiceBuilder.build s with
    | error e => simp [h, Except.map, Except.bind]
    | ok p => simp [h, Except.map, Except.bind]
  · intro s
    unfold TtnBuilder.buildS
    cases h : TtnBuilder.build s with
    | error e => simp [h, Except.map, Except.bind]
    | ok p => simp [h, Except.map, Except.bind]
  · intro s
    unfold EmpowermentBuilder.buildS
    cases h : EmpowermentBuilder.build s with
    | error e => simp [h, Except.map, Except.bind]
    | ok p => simp [h, Except.map, Except.bind]
  · intro s
    unfold LetterNKBuilder.buildS
    cases h : LetterNKBuilder.build s with
    | error e => simp [h, Except.map, Except.bind]
    | ok p => simp [h, Except.map, Except.bind]
  · intro s
    unfold MultiPartyDocumentBuilder.buildS
    cases h : MultiPartyDocumentBuilder.build s with
    | error e => simp [h, Except.map, Except.bind]
    | ok p => simp [h, Except.map, Except.bind]
  · intro s
    unfold ArbitraryDocumentBuilder.buildS
    cases h : ArbitraryDocumentBuilder.build s with
    | error e => simp [h, Except.map, Except.bind]
    | ok p => simp [h, Except.map, Except.bind]
  · intro s k
    cases h1 : s.draft.document with
    | none => simp [FoundersProtocolBuilder.build, h1, Except.map, Except.bind]
    | some doc =>
    cases h2 : s.draft.company with
    | none => simp [FoundersProtocolBuilder.build, h1, h2, Except.map,
        Except.bind]
    | some comp =>
    by_cases h3 : s.draft.participants = []
    · simp [FoundersProtocolBuilder.build, h1, h2, h3, Except.map,
        Except.bind]
    · by_cases h4 : s.draft.parts = []
      · simp [FoundersProtocolBuilder.build, h1, h2, h3, h4, Except.map,
          Except.bind]
      · simp only [FoundersProtocolBuilder.build, h1, h2, if_neg h3,
          if_neg h4, Except.bind, Except.map, jGet]
        rw [assign_twice]

/-- C10, counterexample: the act factory ignores its initial payload — a
complete, buildable draft passed as initial data leaves the builder empty,
and `build()` then fails even though building the same draft directly
succeeds, so the supplied initial fields are not part of the accumulated
state. -/
theorem factory_seed_counterexample :
    act (some c10Init) = ({} : ActState) ∧
    ActBuilder.build (act (some c10Init)) =
      .error "Act document information is required" ∧
    (exOk (ActBuilder.build c10Init)).isSome = true := by
  refine ⟨rfl, rfl, ?_⟩
  with_unfolding_all decide

/-- C10 (amended): the `ttn`, `multiParty`, `arbitrary`, `contract`,
`invoicePharm`, `verificationAct`, `hybridInvoice` and `acceptanceTransfer`
factories seed the builder's internal payload with a (shallow copy of) the
supplied initial payload; the `act`, `invoice`, `empowerment`, `letterNK`
and `foundersProtocol` factories ignore any supplied initial payload and
always start from the empty state. -/
theorem factory_seeding :
    (∀ i : List (String × Json),
      (ttn (some i)).payload = i ∧ (ttn none).payload = [] ∧
      (multiParty (some i)).payload = i ∧ (arbitrary (some i)).payload = i ∧
      hybridInvoice (some i) = i ∧ contract (some i) = i ∧
      invoicePharm (some i) = i ∧ verificationAct (some i) = i ∧
      acceptanceTransfer (some i) = i) ∧
    (∀ i : Option ActState, act i = ({} : ActState)) ∧
    (∀ i : Option InvoiceState, invoice i = ({} : InvoiceState)) ∧
    (∀ i : Option (List (String × Json)),
      empowerment i = ({} : EmpowermentState) ∧
      letterNK i = ({} : LetterNKState) ∧
      foundersProtocol i = ({} : FoundersProtocolState)) :=
  ⟨fun _ => ⟨rfl, rfl, rfl, rfl, rfl, rfl, rfl, rfl, rfl⟩,
   fun _ => rfl, fun _ => rfl, fun _ => ⟨rfl, rfl, rfl⟩⟩

end Didox

